import Mathlib

/-!
Verification development for the TD-Sequential indicator engine of this
repository (`calculate_tds.py`, entry point `calculate_tdsequential`).

The Python pipeline is

  _preprocess_dataframe → _calculate_setup_phases → _calculate_tdst_and_stop_levels
  → _forward_fill_levels → _identify_perfect_setups → _calculate_countdown_phases
  → _identify_stop_events

and each phase below is embedded as a Lean function over a list of OHLC bars
with rational prices.  Per-bar dataframe cells written by a phase are modelled
as `Option` values (a `none` cell is pandas `NaN` / the initialised default);
a later phase that overwrites a cell wins, which is modelled by `Option.orElse`
style fall-through from the later phase's write to the earlier phase's write to
the initialised default.
-/

/-- One OHLC bar.  The `open` price is validated by `_preprocess_dataframe`
but never used by the indicator arithmetic, so it is omitted from the
computational model (column validation is modelled separately, on column
names, for the error-handling claim). -/
structure Bar where
  high : ℚ
  low : ℚ
  close : ℚ
  deriving DecidableEq, Repr

instance : Inhabited Bar := ⟨⟨0, 0, 0⟩⟩

/-- `df["high"].iloc[i]` -/
def high (df : List Bar) (i : ℕ) : ℚ := (df.getD i default).high

/-- `df["low"].iloc[i]` -/
def low (df : List Bar) (i : ℕ) : ℚ := (df.getD i default).low

/-- `df["close"].iloc[i]` -/
def close (df : List Bar) (i : ℕ) : ℚ := (df.getD i default).close

/-- A well-formed OHLC bar series: every bar's close lies between its low and
its high.  (The engine itself never checks this; it is the usual input
contract of OHLC data and is assumed by some claims.) -/
def WellFormed (df : List Bar) : Prop :=
  ∀ b ∈ df, b.low ≤ b.close ∧ b.close ≤ b.high

instance : DecidablePred WellFormed := fun df =>
  inferInstanceAs (Decidable (∀ b ∈ df, _ ∧ _))

/-- `df["buy_setup_condition"].iloc[i]`: current close strictly below the
close 4 bars earlier.  `close_4_periods_ago = close.shift(4)` is `NaN` for
`i < 4` and a `NaN` comparison is `False` in pandas, hence the `4 ≤ i` guard. -/
def buySetupCond (df : List Bar) (i : ℕ) : Bool :=
  decide (4 ≤ i) && decide (close df i < close df (i - 4))

/-- `df["sell_setup_condition"].iloc[i]`: current close strictly above the
close 4 bars earlier (with the same `NaN`-guard for the first four bars). -/
def sellSetupCond (df : List Bar) (i : ℕ) : Bool :=
  decide (4 ≤ i) && decide (close df i > close df (i - 4))

/-- The buy half of `_calculate_setup_phases`: the loop runs `i = 1 .. len-1`,
bar 0 keeps its initialised value 0.  If the buy condition holds: continue the
run when the previous count is in `1..8`, otherwise (previous count 0 or 9)
restart at 1.  If the condition fails, reset to 0. -/
def buySetup (df : List Bar) : ℕ → ℕ
  | 0 => 0
  | i + 1 =>
    if buySetupCond df (i + 1) then
      if 0 < buySetup df i ∧ buySetup df i < 9 then buySetup df i + 1 else 1
    else 0

/-- The sell half of `_calculate_setup_phases` (mirror image of `buySetup`). -/
def sellSetup (df : List Bar) : ℕ → ℕ
  | 0 => 0
  | i + 1 =>
    if sellSetupCond df (i + 1) then
      if 0 < sellSetup df i ∧ sellSetup df i < 9 then sellSetup df i + 1 else 1
    else 0

/-- The index window `max(0, i-8) .. i` used by `setup_bars = df.iloc[setup_start : i+1]`
(natural subtraction already truncates at 0, matching `max(0, i - 8)`). -/
def windowIdx (i : ℕ) : List ℕ := List.range' (i - 8) (i + 1 - (i - 8))

/-- `pandas.Series.max` over a non-empty list (the `[]` case is never reached
on a setup window). -/
def listMax : List ℚ → ℚ
  | [] => 0
  | x :: xs => xs.foldl max x

/-- `pandas.Series.min` over a non-empty list. -/
def listMin : List ℚ → ℚ
  | [] => 0
  | x :: xs => xs.foldl min x

/-- `setup_bars["high"]` for the 9-bar window ending at `i`. -/
def windowHighs (df : List Bar) (i : ℕ) : List ℚ := (windowIdx i).map (high df)

/-- `setup_bars["low"]` for the 9-bar window ending at `i`. -/
def windowLows (df : List Bar) (i : ℕ) : List ℚ := (windowIdx i).map (low df)

/-- `setup_bars[setup_bars["low"] == buy_stop].iloc[0]`: the first index in
the window whose low attains the window minimum. -/
def firstMinLowIdx (df : List Bar) (i : ℕ) : ℕ :=
  ((windowIdx i).find? (fun k => low df k = listMin (windowLows df i))).getD 0

/-- `setup_bars[setup_bars["high"] == sell_stop].iloc[0]`: the first index in
the window whose high attains the window maximum. -/
def firstMaxHighIdx (df : List Bar) (i : ℕ) : ℕ :=
  ((windowIdx i).find? (fun k => high df k = listMax (windowHighs df i))).getD 0

/-- `_calculate_buy_stop_level`: lowest low of the setup window minus the
`high - low` range of the (first) bar attaining that lowest low. -/
def buyStopLevel (df : List Bar) (i : ℕ) : ℚ :=
  let m := firstMinLowIdx df i
  listMin (windowLows df i) - (high df m - low df m)

/-- `_calculate_sell_stop_level`: highest high of the setup window plus the
`high - low` range of the (first) bar attaining that highest high. -/
def sellStopLevel (df : List Bar) (i : ℕ) : ℚ :=
  let m := firstMaxHighIdx df i
  listMax (windowHighs df i) + (high df m - low df m)

lemma buySetup_le_nine (df : List Bar) (i : ℕ) : buySetup df i ≤ 9 := by
  induction i with
  | zero => simp [buySetup]
  | succ j ih =>
    rw [buySetup]
    split
    · split
      · omega
      · omega
    · omega

lemma sellSetup_le_nine (df : List Bar) (i : ℕ) : sellSetup df i ≤ 9 := by
  induction i with
  | zero => simp [sellSetup]
  | succ j ih =>
    rw [sellSetup]
    split
    · split
      · omega
      · omega
    · omega

lemma buySetupCond_false_of_lt_four (df : List Bar) (i : ℕ) (h : i < 4) :
    buySetupCond df i = false := by
  simp [buySetupCond]
  omega

lemma sellSetupCond_false_of_lt_four (df : List Bar) (i : ℕ) (h : i < 4) :
    sellSetupCond df i = false := by
  simp [sellSetupCond]
  omega

lemma buySetup_eq_zero_of_lt_four (df : List Bar) (i : ℕ) (h : i < 4) :
    buySetup df i = 0 := by
  cases i with
  | zero => rfl
  | succ j => rw [buySetup, buySetupCond_false_of_lt_four df _ h]; simp

lemma sellSetup_eq_zero_of_lt_four (df : List Bar) (i : ℕ) (h : i < 4) :
    sellSetup df i = 0 := by
  cases i with
  | zero => rfl
  | succ j => rw [sellSetup, sellSetupCond_false_of_lt_four df _ h]; simp

lemma buySetup_pos_cond (df : List Bar) (i : ℕ) (h : buySetup df i ≠ 0) :
    buySetupCond df i = true := by
  cases i with
  | zero => exact absurd rfl h
  | succ j =>
    rw [buySetup] at h
    by_contra hc
    simp at hc
    rw [hc] at h
    simp at h

lemma sellSetup_pos_cond (df : List Bar) (i : ℕ) (h : sellSetup df i ≠ 0) :
    sellSetupCond df i = true := by
  cases i with
  | zero => exact absurd rfl h
  | succ j =>
    rw [sellSetup] at h
    by_contra hc
    simp at hc
    rw [hc] at h
    simp at h

/-- A bar cannot satisfy the buy and the sell setup condition at once
(`close < close4` and `close > close4` exclude each other). -/
lemma not_buy_and_sell_cond (df : List Bar) (i : ℕ) :
    ¬(buySetupCond df i = true ∧ sellSetupCond df i = true) := by
  rintro ⟨hb, hs⟩
  simp [buySetupCond] at hb
  simp [sellSetupCond] at hs
  exact absurd (hs.2.trans hb.2) (lt_irrefl _)

/-- A positive setup count at bar `i` forces `i` at least `count + 3`
(the run of length `c` ending at `i` began no earlier than bar 4). -/
lemma buySetup_pos_ge (df : List Bar) (i : ℕ) (h : 0 < buySetup df i) :
    buySetup df i + 3 ≤ i := by
  induction i with
  | zero => simp [buySetup] at h
  | succ j ih =>
    have hc := buySetup_pos_cond df (j + 1) (by omega)
    have h4 : 4 ≤ j + 1 := by
      by_contra hlt
      rw [buySetupCond_false_of_lt_four df _ (by omega)] at hc
      exact Bool.false_ne_true hc
    rw [buySetup, hc] at h ⊢
    simp only [if_true]
    split
    · next hp => have := ih hp.1; omega
    · omega

lemma sellSetup_pos_ge (df : List Bar) (i : ℕ) (h : 0 < sellSetup df i) :
    sellSetup df i + 3 ≤ i := by
  induction i with
  | zero => simp [sellSetup] at h
  | succ j ih =>
    have hc := sellSetup_pos_cond df (j + 1) (by omega)
    have h4 : 4 ≤ j + 1 := by
      by_contra hlt
      rw [sellSetupCond_false_of_lt_four df _ (by omega)] at hc
      exact Bool.false_ne_true hc
    rw [sellSetup, hc] at h ⊢
    simp only [if_true]
    split
    · next hp => have := ih hp.1; omega
    · omega

/-- A completed buy setup can only occur from bar 12 on. -/
lemma buySetup_nine_ge_twelve (df : List Bar) (i : ℕ) (h : buySetup df i = 9) :
    12 ≤ i := by
  have := buySetup_pos_ge df i (by omega)
  omega

/-- A completed sell setup can only occur from bar 12 on. -/
lemma sellSetup_nine_ge_twelve (df : List Bar) (i : ℕ) (h : sellSetup df i = 9) :
    12 ≤ i := by
  have := sellSetup_pos_ge df i (by omega)
  omega

/-- C3: the setup counters satisfy the stated recurrence.  For every bar:
counts stay in `0..9`; for `i ≥ 4`, when `close[i] < close[i-4]` the buy count
increments from a previous count in `1..8` and restarts at 1 from a previous
count of 0 or 9, and it resets to 0 when the condition fails; bars `i < 4`
carry count 0; the sell side is symmetric with `close[i] > close[i-4]`. -/
theorem C3_setup_recurrence (df : List Bar) (i : ℕ) :
    buySetup df i ≤ 9 ∧ sellSetup df i ≤ 9
    ∧ (i < 4 → buySetup df i = 0 ∧ sellSetup df i = 0)
    ∧ (4 ≤ i →
        (((close df i < close df (i - 4)) →
            ((0 < buySetup df (i - 1) ∧ buySetup df (i - 1) < 9) →
              buySetup df i = buySetup df (i - 1) + 1)
            ∧ ((buySetup df (i - 1) = 0 ∨ buySetup df (i - 1) = 9) →
              buySetup df i = 1))
          ∧ (¬(close df i < close df (i - 4)) → buySetup df i = 0))
        ∧ (((close df i > close df (i - 4)) →
            ((0 < sellSetup df (i - 1) ∧ sellSetup df (i - 1) < 9) →
              sellSetup df i = sellSetup df (i - 1) + 1)
            ∧ ((sellSetup df (i - 1) = 0 ∨ sellSetup df (i - 1) = 9) →
              sellSetup df i = 1))
          ∧ (¬(close df i > close df (i - 4)) → sellSetup df i = 0))) := by
  refine ⟨buySetup_le_nine df i, sellSetup_le_nine df i,
    fun h => ⟨buySetup_eq_zero_of_lt_four df i h, sellSetup_eq_zero_of_lt_four df i h⟩,
    fun h4 => ⟨⟨fun hlt => ?_, fun hnlt => ?_⟩, ⟨fun hgt => ?_, fun hngt => ?_⟩⟩⟩
  · obtain ⟨j, rfl⟩ : ∃ j, i = j + 1 := ⟨i - 1, by omega⟩
    have hc : buySetupCond df (j + 1) = true := by
      simp [buySetupCond]; exact ⟨by omega, by simpa using hlt⟩
    rw [buySetup, hc]
    simp only [Nat.add_sub_cancel, if_true]
    refine ⟨fun hp => ?_, fun hp => ?_⟩
    · rw [if_pos hp]
    · rw [if_neg (by omega)]
  · obtain ⟨j, rfl⟩ : ∃ j, i = j + 1 := ⟨i - 1, by omega⟩
    have hc : buySetupCond df (j + 1) = false := by
      simp [buySetupCond]; intro _; simpa using hnlt
    rw [buySetup, hc]
    simp
  · obtain ⟨j, rfl⟩ : ∃ j, i = j + 1 := ⟨i - 1, by omega⟩
    have hc : sellSetupCond df (j + 1) = true := by
      simp [sellSetupCond]; exact ⟨by omega, by simpa using hgt⟩
    rw [sellSetup, hc]
    simp only [Nat.add_sub_cancel, if_true]
    refine ⟨fun hp => ?_, fun hp => ?_⟩
    · rw [if_pos hp]
    · rw [if_neg (by omega)]
  · obtain ⟨j, rfl⟩ : ∃ j, i = j + 1 := ⟨i - 1, by omega⟩
    have hc : sellSetupCond df (j + 1) = false := by
      simp [sellSetupCond]; intro _; simpa using hngt
    rw [sellSetup, hc]
    simp

/-- A 15-bar series with strictly decreasing closes (`100 - i`), used as a
concrete witness input: the buy setup counts run 1..9 over bars 4..12. -/
def dfA : List Bar :=
  [⟨101, 99, 100⟩, ⟨100, 98, 99⟩, ⟨99, 97, 98⟩, ⟨98, 96, 97⟩,
   ⟨97, 95, 96⟩, ⟨96, 94, 95⟩, ⟨95, 93, 94⟩, ⟨94, 92, 93⟩,
   ⟨93, 91, 92⟩, ⟨92, 90, 91⟩, ⟨91, 89, 90⟩, ⟨90, 88, 89⟩,
   ⟨89, 87, 88⟩, ⟨88, 86, 87⟩, ⟨87, 85, 86⟩]

theorem C3_setup_recurrence_witness :
    buySetup dfA 12 = buySetup dfA 11 + 1 ∧ sellSetup dfA 12 = 0 := by
  have h := C3_setup_recurrence dfA 12
  constructor
  · exact ((h.2.2.2 (by omega)).1.1 (by with_unfolding_all decide)).1
      ⟨by with_unfolding_all decide, by with_unfolding_all decide⟩
  · exact (h.2.2.2 (by omega)).2.2 (by with_unfolding_all decide)

/-- A 5-bar series whose last close undercuts the close 4 bars earlier:
already the fifth bar carries a non-zero buy setup count. -/
def dfC9 : List Bar :=
  [⟨11, 9, 10⟩, ⟨11, 9, 10⟩, ⟨11, 9, 10⟩, ⟨11, 9, 10⟩, ⟨10, 8, 9⟩]

/-- C9 counterexample: an input with 5 bars (fewer than 10) whose output
contains the non-zero setup count `buy_setup[4] = 1`, contradicting the claim
that at least 10 bars are required before any non-zero setup count appears. -/
theorem C9_counterexample :
    dfC9.length < 10 ∧ 4 < dfC9.length ∧ buySetup dfC9 4 = 1 :=
  ⟨by decide, by decide, by with_unfolding_all decide⟩

/-- C9 amended: the true minimum is 5 bars, not 10 — for every input series
containing fewer than 5 bars, every `buy_setup` and `sell_setup` value in the
output is 0 (a non-zero count first becomes possible at bar index 4, which
requires at least 5 bars). -/
theorem C9_amended (df : List Bar) (h : df.length < 5) (i : ℕ) (hi : i < df.length) :
    buySetup df i = 0 ∧ sellSetup df i = 0 :=
  ⟨buySetup_eq_zero_of_lt_four df i (by omega), sellSetup_eq_zero_of_lt_four df i (by omega)⟩

/-- A 4-bar series used to instantiate the amended C9 statement. -/
def dfShort : List Bar := [⟨11, 9, 10⟩, ⟨11, 9, 10⟩, ⟨11, 9, 10⟩, ⟨10, 8, 9⟩]

theorem C9_amended_witness : buySetup dfShort 3 = 0 ∧ sellSetup dfShort 3 = 0 :=
  C9_amended dfShort (by decide) 3 (by decide)

/-- The required OHLC columns checked by `_preprocess_dataframe`. -/
def requiredCols : List String := ["open", "high", "low", "close"]

/-- The validation loop of `_preprocess_dataframe`: for each required column,
if it is not among the (already lowercased) dataframe columns, a `ValueError`
is raised naming that column; otherwise the check passes. -/
def checkRequiredCols (lowered : List String) : List String → Except String Unit
  | [] => Except.ok ()
  | c :: rest =>
    if lowered.contains c then checkRequiredCols lowered rest
    else Except.error ("Required column " ++ c ++ " not found in dataframe")

/-- The column validation of `_preprocess_dataframe`: column names are
lowercased first (`df.columns = [col.lower() for col in df.columns]`), then
the four required columns are checked.  This runs before any indicator value
is computed (it is the first statement of the pipeline). -/
def preprocessValidate (cols : List String) : Except String Unit :=
  checkRequiredCols (cols.map String.toLower) requiredCols

lemma checkRequiredCols_isOk (lowered : List String) (cs : List String) :
    (checkRequiredCols lowered cs).isOk = true ↔ ∀ c ∈ cs, c ∈ lowered := by
  induction cs with
  | nil => simp [checkRequiredCols, Except.isOk, Except.toBool]
  | cons c rest ih =>
    rw [checkRequiredCols]
    by_cases hc : lowered.contains c
    · rw [if_pos hc]
      simp only [List.mem_cons]
      rw [ih]
      constructor
      · rintro h d (rfl | hd)
        · simpa using hc
        · exact h d hd
      · intro h d hd
        exact h d (Or.inr hd)
    · rw [if_neg hc]
      simp only [Except.isOk, Except.toBool, List.mem_cons]
      constructor
      · intro h
        simp at h
      · intro h
        exact absurd (by simpa using h c (Or.inl rfl)) hc

/-- C10: `calculate_tdsequential` raises a missing-column error, before any
indicator computation, exactly when one of `open/high/low/close` is absent
from the input's column names matched case-insensitively; when all four are
present under any letter case, no missing-column error is raised. -/
theorem C10_column_validation (cols : List String) :
    (preprocessValidate cols).isOk = true ↔
      ∀ c ∈ requiredCols, c ∈ cols.map String.toLower := by
  exact checkRequiredCols_isOk (cols.map String.toLower) requiredCols

theorem C10_column_validation_witness :
    (preprocessValidate ["Open", "High", "Low", "Close", "Volume"]).isOk = true
    ∧ (preprocessValidate ["Open", "High", "Low"]).isOk = false :=
  ⟨(C10_column_validation _).mpr (by with_unfolding_all decide),
   by
    have h := (C10_column_validation ["Open", "High", "Low"]).not.mpr
      (by with_unfolding_all decide)
    simpa using h⟩

/-!
## TDST levels: `_calculate_tdst_and_stop_levels` (TDST part) and
`_forward_fill_levels` (TDST part)

Within each of the two Python loops the buy-TDST, sell-TDST, buy-stop and
sell-stop column groups touch disjoint state and disjoint cells, so each
group is embedded as its own fold.  Phase 3 (`_calculate_tdst_and_stop_levels`)
runs `i = 1 .. len-1`; phase 4 (`_forward_fill_levels`) runs `i = 0 .. len-1`
and reads exactly the phase-3 cell of the current bar before overwriting it.
A step function returns (new state, cell writes of this bar); a `none` write
leaves the cell as the earlier phase / initialisation left it.
-/

/-- One bar of the buy-TDST part of `_calculate_tdst_and_stop_levels`:
first the cancellation check (`close[i] > current_buy_tdst` clears the level
and writes `buy_tdst_active = False`), then, if `buy_setup[i] == 9`, the new
level (highest high of the 9-bar window) is installed and written with
`buy_tdst_active = True`.  Returns (new state, `buy_tdst_level` cell write,
`buy_tdst_active` cell write). -/
def buyTdst3Step (df : List Bar) (i : ℕ) (cur : Option ℚ) :
    Option ℚ × Option ℚ × Option Bool :=
  let s1 : Option ℚ × Option Bool :=
    match cur with
    | some v => if close df i > v then (none, some false) else (some v, none)
    | none => (none, none)
  if buySetup df i = 9 then
    let L := listMax (windowHighs df i)
    (some L, some L, some true)
  else
    (s1.1, none, s1.2)

/-- Sell mirror of `buyTdst3Step` (cancel on `close[i] < current_sell_tdst`,
new level = lowest low of the window). -/
def sellTdst3Step (df : List Bar) (i : ℕ) (cur : Option ℚ) :
    Option ℚ × Option ℚ × Option Bool :=
  let s1 : Option ℚ × Option Bool :=
    match cur with
    | some v => if close df i < v then (none, some false) else (some v, none)
    | none => (none, none)
  if sellSetup df i = 9 then
    let L := listMin (windowLows df i)
    (some L, some L, some true)
  else
    (s1.1, none, s1.2)

/-- `current_buy_tdst` after the phase-3 loop has processed bars `1 .. i`. -/
def buyTdst3S (df : List Bar) : ℕ → Option ℚ
  | 0 => none
  | i + 1 => (buyTdst3Step df (i + 1) (buyTdst3S df i)).1

/-- `current_sell_tdst` after the phase-3 loop has processed bars `1 .. i`. -/
def sellTdst3S (df : List Bar) : ℕ → Option ℚ
  | 0 => none
  | i + 1 => (sellTdst3Step df (i + 1) (sellTdst3S df i)).1

/-- The (`buy_tdst_level`, `buy_tdst_active`) cell writes of phase 3 at bar
`i` (the loop starts at `i = 1`, so bar 0 is never written). -/
def buyTdst3W (df : List Bar) : ℕ → Option ℚ × Option Bool
  | 0 => (none, none)
  | i + 1 => (buyTdst3Step df (i + 1) (buyTdst3S df i)).2

/-- The (`sell_tdst_level`, `sell_tdst_active`) cell writes of phase 3 at bar `i`. -/
def sellTdst3W (df : List Bar) : ℕ → Option ℚ × Option Bool
  | 0 => (none, none)
  | i + 1 => (sellTdst3Step df (i + 1) (sellTdst3S df i)).2

/-- One bar of the buy-TDST part of `_forward_fill_levels`: pick up a freshly
written `buy_tdst_level` cell (sets `buy_tdst_active := True`,
`last_buy_tdst := cell`), then the cancellation check (`close[i] >
last_buy_tdst` while active writes `buy_tdst_active = False`), then the
forward fill (while active, write the level and `True` onto this bar).
State is (`buy_tdst_active`, `last_buy_tdst`). -/
def buyTdst4Step (df : List Bar) (i : ℕ) (s : Bool × Option ℚ) :
    (Bool × Option ℚ) × Option ℚ × Option Bool :=
  let s1 : Bool × Option ℚ :=
    match (buyTdst3W df i).1 with
    | some L => (true, some L)
    | none => s
  match s1 with
  | (true, some v) =>
    if close df i > v then ((false, some v), none, some false)
    else ((true, some v), some v, some true)
  | s1 => (s1, none, none)

/-- Sell mirror of `buyTdst4Step` (cancel on `close[i] < last_sell_tdst`). -/
def sellTdst4Step (df : List Bar) (i : ℕ) (s : Bool × Option ℚ) :
    (Bool × Option ℚ) × Option ℚ × Option Bool :=
  let s1 : Bool × Option ℚ :=
    match (sellTdst3W df i).1 with
    | some L => (true, some L)
    | none => s
  match s1 with
  | (true, some v) =>
    if close df i < v then ((false, some v), none, some false)
    else ((true, some v), some v, some true)
  | s1 => (s1, none, none)

/-- Forward-fill state after processing bars `0 .. i` (the loop starts at 0
with `buy_tdst_active = False`, `last_buy_tdst = None`). -/
def buyTdst4S (df : List Bar) : ℕ → Bool × Option ℚ
  | 0 => (buyTdst4Step df 0 (false, none)).1
  | i + 1 => (buyTdst4Step df (i + 1) (buyTdst4S df i)).1

/-- Sell mirror of `buyTdst4S`. -/
def sellTdst4S (df : List Bar) : ℕ → Bool × Option ℚ
  | 0 => (sellTdst4Step df 0 (false, none)).1
  | i + 1 => (sellTdst4Step df (i + 1) (sellTdst4S df i)).1

/-- The (`buy_tdst_level`, `buy_tdst_active`) cell writes of the forward-fill
phase at bar `i`. -/
def buyTdst4W (df : List Bar) : ℕ → Option ℚ × Option Bool
  | 0 => (buyTdst4Step df 0 (false, none)).2
  | i + 1 => (buyTdst4Step df (i + 1) (buyTdst4S df i)).2

/-- The (`sell_tdst_level`, `sell_tdst_active`) cell writes of the
forward-fill phase at bar `i`. -/
def sellTdst4W (df : List Bar) : ℕ → Option ℚ × Option Bool
  | 0 => (sellTdst4Step df 0 (false, none)).2
  | i + 1 => (sellTdst4Step df (i + 1) (sellTdst4S df i)).2

/-- Final `buy_tdst_level` column of bar `i`: the forward-fill write if any,
else the phase-3 write, else `NaN`. -/
def buy_tdst_level (df : List Bar) (i : ℕ) : Option ℚ :=
  match (buyTdst4W df i).1 with
  | some v => some v
  | none => (buyTdst3W df i).1

/-- Final `buy_tdst_active` column of bar `i`: the forward-fill write if any,
else the phase-3 write, else the initialised `False`. -/
def buy_tdst_active (df : List Bar) (i : ℕ) : Bool :=
  match (buyTdst4W df i).2 with
  | some b => b
  | none => ((buyTdst3W df i).2).getD false

/-- Final `sell_tdst_level` column of bar `i`. -/
def sell_tdst_level (df : List Bar) (i : ℕ) : Option ℚ :=
  match (sellTdst4W df i).1 with
  | some v => some v
  | none => (sellTdst3W df i).1

/-- Final `sell_tdst_active` column of bar `i`. -/
def sell_tdst_active (df : List Bar) (i : ℕ) : Bool :=
  match (sellTdst4W df i).2 with
  | some b => b
  | none => ((sellTdst3W df i).2).getD false

lemma mem_windowIdx_self (i : ℕ) : i ∈ windowIdx i := by
  rw [windowIdx, List.mem_range']
  exact ⟨i - (i - 8), by omega, by omega⟩

lemma le_foldl_max (l : List ℚ) (a : ℚ) : a ≤ l.foldl max a := by
  induction l generalizing a with
  | nil => simp
  | cons x xs ih => exact le_trans (le_max_left a x) (ih (max a x))

lemma mem_le_foldl_max (l : List ℚ) (a x : ℚ) (hx : x ∈ l) : x ≤ l.foldl max a := by
  induction l generalizing a with
  | nil => cases hx
  | cons y ys ih =>
    rcases List.mem_cons.mp hx with rfl | h
    · exact le_trans (le_max_right a x) (le_foldl_max ys (max a x))
    · exact ih (max a y) h

lemma listMax_ge (l : List ℚ) (x : ℚ) (hx : x ∈ l) : x ≤ listMax l := by
  cases l with
  | nil => cases hx
  | cons y ys =>
    rcases List.mem_cons.mp hx with rfl | h
    · exact le_foldl_max ys x
    · exact mem_le_foldl_max ys y x h

lemma foldl_min_le (l : List ℚ) (a : ℚ) : l.foldl min a ≤ a := by
  induction l generalizing a with
  | nil => simp
  | cons x xs ih => exact le_trans (ih (min a x)) (min_le_left a x)

lemma foldl_min_le_mem (l : List ℚ) (a x : ℚ) (hx : x ∈ l) : l.foldl min a ≤ x := by
  induction l generalizing a with
  | nil => cases hx
  | cons y ys ih =>
    rcases List.mem_cons.mp hx with rfl | h
    · exact le_trans (foldl_min_le ys (min a x)) (min_le_right a x)
    · exact ih (min a y) h

lemma listMin_le (l : List ℚ) (x : ℚ) (hx : x ∈ l) : listMin l ≤ x := by
  cases l with
  | nil => cases hx
  | cons y ys =>
    rcases List.mem_cons.mp hx with rfl | h
    · exact foldl_min_le ys x
    · exact foldl_min_le_mem ys y x h

/-- On an in-range bar of a well-formed series, `low ≤ close ≤ high`. -/
lemma wf_at (df : List Bar) (hWF : WellFormed df) (i : ℕ) (hi : i < df.length) :
    low df i ≤ close df i ∧ close df i ≤ high df i := by
  have hg : df.getD i default = df[i] := List.getD_eq_getElem df default hi
  have hmem : df[i] ∈ df := List.getElem_mem hi
  have := hWF _ hmem
  rw [low, close, high, hg]
  exact this

lemma close_le_windowMax (df : List Bar) (hWF : WellFormed df) (i : ℕ)
    (hi : i < df.length) : close df i ≤ listMax (windowHighs df i) := by
  refine le_trans (wf_at df hWF i hi).2 (listMax_ge _ _ ?_)
  rw [windowHighs]
  exact List.mem_map_of_mem (high df) (mem_windowIdx_self i)

lemma windowMin_le_close (df : List Bar) (hWF : WellFormed df) (i : ℕ)
    (hi : i < df.length) : listMin (windowLows df i) ≤ close df i := by
  refine le_trans (listMin_le _ _ ?_) (wf_at df hWF i hi).1
  rw [windowLows]
  exact List.mem_map_of_mem (low df) (mem_windowIdx_self i)

lemma buyTdst_completion_step (df : List Bar) (hWF : WellFormed df) (i : ℕ)
    (hi : i < df.length) (h9 : buySetup df i = 9) :
    buyTdst4S df i = (true, some (listMax (windowHighs df i))) ∧
    buyTdst4W df i = (some (listMax (windowHighs df i)), some true) := by
  have h12 := buySetup_nine_ge_twelve df i h9
  obtain ⟨j, rfl⟩ : ∃ j, i = j + 1 := ⟨i - 1, by omega⟩
  have hcell : (buyTdst3W df (j + 1)).1 = some (listMax (windowHighs df (j + 1))) := by
    rw [buyTdst3W]
    simp [buyTdst3Step, h9]
  have hnc : ¬ close df (j + 1) > listMax (windowHighs df (j + 1)) :=
    not_lt.mpr (close_le_windowMax df hWF (j + 1) hi)
  constructor
  · rw [buyTdst4S]
    simp [buyTdst4Step, hcell, hnc]
  · rw [buyTdst4W]
    simp [buyTdst4Step, hcell, hnc]

lemma buyTdst_fill_step (df : List Bar) (j : ℕ) (L : ℚ)
    (hs : buyTdst4S df j = (true, some L))
    (h9 : buySetup df (j + 1) ≠ 9)
    (hnc : ¬ close df (j + 1) > L) :
    buyTdst4S df (j + 1) = (true, some L) ∧
    buyTdst4W df (j + 1) = (some L, some true) := by
  have hcell : (buyTdst3W df (j + 1)).1 = none := by
    rw [buyTdst3W]
    simp [buyTdst3Step, h9]
  constructor
  · rw [buyTdst4S]
    simp [buyTdst4Step, hcell, hs, hnc]
  · rw [buyTdst4W]
    simp [buyTdst4Step, hcell, hs, hnc]

lemma buyTdst_cancel_step (df : List Bar) (j : ℕ) (L : ℚ)
    (hs : buyTdst4S df j = (true, some L))
    (h9 : buySetup df (j + 1) ≠ 9)
    (hc : close df (j + 1) > L) :
    buyTdst4S df (j + 1) = (false, some L) ∧
    buyTdst4W df (j + 1) = (none, some false) := by
  have hcell : (buyTdst3W df (j + 1)).1 = none := by
    rw [buyTdst3W]
    simp [buyTdst3Step, h9]
  constructor
  · rw [buyTdst4S]
    simp [buyTdst4Step, hcell, hs, hc]
  · rw [buyTdst4W]
    simp [buyTdst4Step, hcell, hs, hc]

lemma buyTdst_run (df : List Bar) (hWF : WellFormed df) (i : ℕ)
    (hi : i < df.length) (h9 : buySetup df i = 9) :
    ∀ m, i ≤ m →
      (∀ j, i < j → j ≤ m → buySetup df j ≠ 9) →
      (∀ j, i < j → j ≤ m → ¬ close df j > listMax (windowHighs df i)) →
      buyTdst4S df m = (true, some (listMax (windowHighs df i))) ∧
      (∀ j, i ≤ j → j ≤ m →
        buyTdst4W df j = (some (listMax (windowHighs df i)), some true)) := by
  intro m hm
  induction m, hm using Nat.le_induction with
  | base =>
    intro _ _
    have h := buyTdst_completion_step df hWF i hi h9
    refine ⟨h.1, fun j h1 h2 => ?_⟩
    have : j = i := le_antisymm h2 h1
    subst this
    exact h.2
  | succ n hn ih =>
    intro hno hcl
    have ihc := ih (fun j h1 h2 => hno j h1 (by omega)) (fun j h1 h2 => hcl j h1 (by omega))
    have hstep := buyTdst_fill_step df n _ ihc.1 (hno (n + 1) (by omega) le_rfl)
      (hcl (n + 1) (by omega) le_rfl)
    refine ⟨hstep.1, fun j h1 h2 => ?_⟩
    rcases Nat.lt_or_ge j (n + 1) with h | h
    · exact ihc.2 j h1 (by omega)
    · have : j = n + 1 := by omega
      subst this
      exact hstep.2

lemma sellTdst_completion_step (df : List Bar) (hWF : WellFormed df) (i : ℕ)
    (hi : i < df.length) (h9 : sellSetup df i = 9) :
    sellTdst4S df i = (true, some (listMin (windowLows df i))) ∧
    sellTdst4W df i = (some (listMin (windowLows df i)), some true) := by
  have h12 := sellSetup_nine_ge_twelve df i h9
  obtain ⟨j, rfl⟩ : ∃ j, i = j + 1 := ⟨i - 1, by omega⟩
  have hcell : (sellTdst3W df (j + 1)).1 = some (listMin (windowLows df (j + 1))) := by
    rw [sellTdst3W]
    simp [sellTdst3Step, h9]
  have hnc : ¬ close df (j + 1) < listMin (windowLows df (j + 1)) :=
    not_lt.mpr (windowMin_le_close df hWF (j + 1) hi)
  constructor
  · rw [sellTdst4S]
    simp [sellTdst4Step, hcell, hnc]
  · rw [sellTdst4W]
    simp [sellTdst4Step, hcell, hnc]

lemma sellTdst_fill_step (df : List Bar) (j : ℕ) (L : ℚ)
    (hs : sellTdst4S df j = (true, some L))
    (h9 : sellSetup df (j + 1) ≠ 9)
    (hnc : ¬ close df (j + 1) < L) :
    sellTdst4S df (j + 1) = (true, some L) ∧
    sellTdst4W df (j + 1) = (some L, some true) := by
  have hcell : (sellTdst3W df (j + 1)).1 = none := by
    rw [sellTdst3W]
    simp [sellTdst3Step, h9]
  constructor
  · rw [sellTdst4S]
    simp [sellTdst4Step, hcell, hs, hnc]
  · rw [sellTdst4W]
    simp [sellTdst4Step, hcell, hs, hnc]

lemma sellTdst_cancel_step (df : List Bar) (j : ℕ) (L : ℚ)
    (hs : sellTdst4S df j = (true, some L))
    (h9 : sellSetup df (j + 1) ≠ 9)
    (hc : close df (j + 1) < L) :
    sellTdst4S df (j + 1) = (false, some L) ∧
    sellTdst4W df (j + 1) = (none, some false) := by
  have hcell : (sellTdst3W df (j + 1)).1 = none := by
    rw [sellTdst3W]
    simp [sellTdst3Step, h9]
  constructor
  · rw [sellTdst4S]
    simp [sellTdst4Step, hcell, hs, hc]
  · rw [sellTdst4W]
    simp [sellTdst4Step, hcell, hs, hc]

lemma sellTdst_run (df : List Bar) (hWF : WellFormed df) (i : ℕ)
    (hi : i < df.length) (h9 : sellSetup df i = 9) :
    ∀ m, i ≤ m →
      (∀ j, i < j → j ≤ m → sellSetup df j ≠ 9) →
      (∀ j, i < j → j ≤ m → ¬ close df j < listMin (windowLows df i)) →
      sellTdst4S df m = (true, some (listMin (windowLows df i))) ∧
      (∀ j, i ≤ j → j ≤ m →
        sellTdst4W df j = (some (listMin (windowLows df i)), some true)) := by
  intro m hm
  induction m, hm using Nat.le_induction with
  | base =>
    intro _ _
    have h := sellTdst_completion_step df hWF i hi h9
    refine ⟨h.1, fun j h1 h2 => ?_⟩
    have : j = i := le_antisymm h2 h1
    subst this
    exact h.2
  | succ n hn ih =>
    intro hno hcl
    have ihc := ih (fun j h1 h2 => hno j h1 (by omega)) (fun j h1 h2 => hcl j h1 (by omega))
    have hstep := sellTdst_fill_step df n _ ihc.1 (hno (n + 1) (by omega) le_rfl)
      (hcl (n + 1) (by omega) le_rfl)
    refine ⟨hstep.1, fun j h1 h2 => ?_⟩
    rcases Nat.lt_or_ge j (n + 1) with h | h
    · exact ihc.2 j h1 (by omega)
    · have : j = n + 1 := by omega
      subst this
      exact hstep.2

/-- C2: when a buy setup reaches 9 at bar `i`, the output `buy_tdst_level` at
bar `i` is the maximum high over the 9-bar window `[i-8, i]` and it is marked
active; on each later bar the cancellation check `close > level` applies
before any new level could be assigned there, the identical price is repeated
onto every bar's output while active and uncancelled, and the level
deactivates at the first bar whose close exceeds it.  The sell side is
symmetric with the minimum low over the window and the check `close < level`.
(The window extremes are computed by the embedded `windowHighs`/`windowLows`
over `[max(0, i-8), i]`, and a completed setup forces `i ≥ 12`, so the window
is exactly the claim's `[i-8, i]`.) -/
theorem C2_tdst_levels (df : List Bar) (i k : ℕ) (hWF : WellFormed df)
    (hik : i < k) (hk : k < df.length) :
    ((buySetup df i = 9 ∧ (∀ j, i < j → j ≤ k → buySetup df j ≠ 9) ∧
        (∀ j, i < j → j < k → close df j ≤ listMax (windowHighs df i)) ∧
        listMax (windowHighs df i) < close df k) →
      (∀ j, i ≤ j → j < k →
          buy_tdst_level df j = some (listMax (windowHighs df i)) ∧
          buy_tdst_active df j = true) ∧
      buy_tdst_active df k = false)
    ∧ ((sellSetup df i = 9 ∧ (∀ j, i < j → j ≤ k → sellSetup df j ≠ 9) ∧
        (∀ j, i < j → j < k → listMin (windowLows df i) ≤ close df j) ∧
        close df k < listMin (windowLows df i)) →
      (∀ j, i ≤ j → j < k →
          sell_tdst_level df j = some (listMin (windowLows df i)) ∧
          sell_tdst_active df j = true) ∧
      sell_tdst_active df k = false) := by
  constructor
  · rintro ⟨h9, hno, hcl, hcross⟩
    have hi : i < df.length := lt_trans hik hk
    obtain ⟨n, rfl⟩ : ∃ n, k = n + 1 := ⟨k - 1, by omega⟩
    have hrun := buyTdst_run df hWF i hi h9 n (by omega)
      (fun j h1 h2 => hno j h1 (by omega))
      (fun j h1 h2 => not_lt.mpr (hcl j h1 (by omega)))
    have hcancel := buyTdst_cancel_step df n _ hrun.1 (hno (n + 1) (by omega) le_rfl) hcross
    constructor
    · intro j h1 h2
      have hw := hrun.2 j h1 (by omega)
      constructor
      · rw [buy_tdst_level, hw]
      · rw [buy_tdst_active, hw]
    · rw [buy_tdst_active, hcancel.2]
  · rintro ⟨h9, hno, hcl, hcross⟩
    have hi : i < df.length := lt_trans hik hk
    obtain ⟨n, rfl⟩ : ∃ n, k = n + 1 := ⟨k - 1, by omega⟩
    have hrun := sellTdst_run df hWF i hi h9 n (by omega)
      (fun j h1 h2 => hno j h1 (by omega))
      (fun j h1 h2 => not_lt.mpr (hcl j h1 (by omega)))
    have hcancel := sellTdst_cancel_step df n _ hrun.1 (hno (n + 1) (by omega) le_rfl) hcross
    constructor
    · intro j h1 h2
      have hw := hrun.2 j h1 (by omega)
      constructor
      · rw [sell_tdst_level, hw]
      · rw [sell_tdst_active, hw]
    · rw [sell_tdst_active, hcancel.2]

/-- Scenario B input: a buy setup completes at bar 12 and its 9-bar window
(bars 4..12) has highs `[10, 11, 9, 12, 8, 13, 7, 14, 6]`, so the bullish
TDST level is 14; bar 14 is the first bar closing above 14. -/
def dfB : List Bar :=
  [⟨10, 8, 9⟩, ⟨10, 8, 9⟩, ⟨9, 7, 8⟩, ⟨10, 8, 9⟩,
   ⟨10, 7, 8⟩, ⟨11, 7, 8⟩, ⟨9, 6, 7⟩, ⟨12, 7, 8⟩, ⟨8, 6, 7⟩,
   ⟨13, 6, 7⟩, ⟨7, 5, 6⟩, ⟨14, 6, 7⟩, ⟨6, 4, 5⟩,
   ⟨5, 3, 4⟩, ⟨16, 14, 15⟩]

theorem C2_tdst_levels_witness :
    buySetup dfB 12 = 9 ∧ listMax (windowHighs dfB 12) = 14 ∧
    buy_tdst_level dfB 12 = some 14 ∧ buy_tdst_level dfB 13 = some 14 ∧
    buy_tdst_active dfB 13 = true ∧ buy_tdst_active dfB 14 = false := by
  have h := (C2_tdst_levels dfB 12 14 (by with_unfolding_all decide) (by omega)
      (by decide)).1
    ⟨by with_unfolding_all decide,
     fun j h1 h2 => by
       have hj : j = 13 ∨ j = 14 := by omega
       rcases hj with rfl | rfl <;> with_unfolding_all decide,
     fun j h1 h2 => by
       have hj : j = 13 := by omega
       subst hj
       with_unfolding_all decide,
     by with_unfolding_all decide⟩
  have h14 : listMax (windowHighs dfB 12) = 14 := by with_unfolding_all decide
  rw [h14] at h
  exact ⟨by with_unfolding_all decide, h14,
    (h.1 12 (by omega) (by omega)).1, (h.1 13 (by omega) (by omega)).1,
    (h.1 13 (by omega) (by omega)).2, h.2⟩

/-!
## Setup stop-loss levels: the stop part of `_calculate_tdst_and_stop_levels`
and of `_forward_fill_levels`, and the event flags of `_identify_stop_events`.
-/

/-- Phase-3 stop state: (`current_buy_stop`/`current_sell_stop`,
`inactive_buy_stop`/`inactive_sell_stop`, `buy_stop_triggered`/`sell_stop_triggered`). -/
structure StopSt where
  cur : Option ℚ
  inact : Option ℚ
  trig : Bool
  deriving DecidableEq, Repr

/-- One bar of the buy-stop part of `_calculate_tdst_and_stop_levels`:
trigger check (`low[i] <= current_buy_stop` stores the stop for reactivation
and writes `buy_setup_stop_active = False`), then reactivation check
(`low[i] > inactive_buy_stop` while triggered restores the stop, writing it
and `True`), then a completed setup installs a fresh stop and clears the
trigger/reactivation memory.  Returns (state, `buy_setup_stop` cell write,
`buy_setup_stop_active` cell write). -/
def buyStop3Step (df : List Bar) (i : ℕ) (s : StopSt) :
    StopSt × Option ℚ × Option Bool :=
  let t1 : StopSt × Option Bool :=
    match s.cur with
    | some v =>
      if low df i ≤ v then (⟨none, some v, true⟩, some false) else (s, none)
    | none => (s, none)
  let t2 : StopSt × Option ℚ × Option Bool :=
    match t1.1.inact with
    | some w =>
      if t1.1.trig ∧ low df i > w then (⟨some w, none, false⟩, some w, some true)
      else (t1.1, none, t1.2)
    | none => (t1.1, none, t1.2)
  if buySetup df i = 9 then
    let v := buyStopLevel df i
    (⟨some v, none, false⟩, some v, some true)
  else t2

/-- Sell mirror of `buyStop3Step`: trigger on `high[i] >= current_sell_stop`,
reactivate on `high[i] < inactive_sell_stop`. -/
def sellStop3Step (df : List Bar) (i : ℕ) (s : StopSt) :
    StopSt × Option ℚ × Option Bool :=
  let t1 : StopSt × Option Bool :=
    match s.cur with
    | some v =>
      if high df i ≥ v then (⟨none, some v, true⟩, some false) else (s, none)
    | none => (s, none)
  let t2 : StopSt × Option ℚ × Option Bool :=
    match t1.1.inact with
    | some w =>
      if t1.1.trig ∧ high df i < w then (⟨some w, none, false⟩, some w, some true)
      else (t1.1, none, t1.2)
    | none => (t1.1, none, t1.2)
  if sellSetup df i = 9 then
    let v := sellStopLevel df i
    (⟨some v, none, false⟩, some v, some true)
  else t2

/-- Phase-3 buy-stop state after processing bars `1 .. i`. -/
def buyStop3S (df : List Bar) : ℕ → StopSt
  | 0 => ⟨none, none, false⟩
  | i + 1 => (buyStop3Step df (i + 1) (buyStop3S df i)).1

/-- Phase-3 sell-stop state after processing bars `1 .. i`. -/
def sellStop3S (df : List Bar) : ℕ → StopSt
  | 0 => ⟨none, none, false⟩
  | i + 1 => (sellStop3Step df (i + 1) (sellStop3S df i)).1

/-- Phase-3 (`buy_setup_stop`, `buy_setup_stop_active`) cell writes at bar `i`. -/
def buyStop3W (df : List Bar) : ℕ → Option ℚ × Option Bool
  | 0 => (none, none)
  | i + 1 => (buyStop3Step df (i + 1) (buyStop3S df i)).2

/-- Phase-3 (`sell_setup_stop`, `sell_setup_stop_active`) cell writes at bar `i`. -/
def sellStop3W (df : List Bar) : ℕ → Option ℚ × Option Bool
  | 0 => (none, none)
  | i + 1 => (sellStop3Step df (i + 1) (sellStop3S df i)).2

/-- Forward-fill stop state: (`buy_stop_active`, `last_buy_stop`,
`inactive_buy_stop_ff`, `buy_stop_triggered_ff`) and the sell counterparts. -/
structure FFStopSt where
  act : Bool
  last : Option ℚ
  inact : Option ℚ
  trig : Bool
  deriving DecidableEq, Repr

/-- One bar of the buy-stop part of `_forward_fill_levels`: pick up a freshly
written `buy_setup_stop` cell (activates it and clears the reactivation
memory), then the trigger check (`low[i] <= last_buy_stop` while active),
then the reactivation check (`low[i] > inactive_buy_stop_ff` while
triggered), then the forward fill of an active stop onto this bar.  (The
fill writes `last_buy_stop`; the `active`-with-no-level state is
unreachable, and the catch-all arm leaves the earlier writes.) -/
def buyStop4Step (df : List Bar) (i : ℕ) (s : FFStopSt) :
    FFStopSt × Option ℚ × Option Bool :=
  let s0 : FFStopSt :=
    match (buyStop3W df i).1 with
    | some v => ⟨true, some v, none, false⟩
    | none => s
  let t1 : FFStopSt × Option Bool :=
    match s0.act, s0.last with
    | true, some v =>
      if low df i ≤ v then (⟨false, some v, some v, true⟩, some false) else (s0, none)
    | _, _ => (s0, none)
  let t2 : FFStopSt × Option ℚ × Option Bool :=
    match t1.1.inact with
    | some w =>
      if t1.1.trig ∧ low df i > w then (⟨true, some w, none, false⟩, some w, some true)
      else (t1.1, none, t1.2)
    | none => (t1.1, none, t1.2)
  match t2.1.act, t2.1.last with
  | true, some v => (t2.1, some v, some true)
  | _, _ => t2

/-- Sell mirror of `buyStop4Step` (trigger on `high[i] >= last_sell_stop`,
reactivate on `high[i] < inactive_sell_stop_ff`). -/
def sellStop4Step (df : List Bar) (i : ℕ) (s : FFStopSt) :
    FFStopSt × Option ℚ × Option Bool :=
  let s0 : FFStopSt :=
    match (sellStop3W df i).1 with
    | some v => ⟨true, some v, none, false⟩
    | none => s
  let t1 : FFStopSt × Option Bool :=
    match s0.act, s0.last with
    | true, some v =>
      if high df i ≥ v then (⟨false, some v, some v, true⟩, some false) else (s0, none)
    | _, _ => (s0, none)
  let t2 : FFStopSt × Option ℚ × Option Bool :=
    match t1.1.inact with
    | some w =>
      if t1.1.trig ∧ high df i < w then (⟨true, some w, none, false⟩, some w, some true)
      else (t1.1, none, t1.2)
    | none => (t1.1, none, t1.2)
  match t2.1.act, t2.1.last with
  | true, some v => (t2.1, some v, some true)
  | _, _ => t2

/-- Forward-fill buy-stop state after processing bars `0 .. i`. -/
def buyStop4S (df : List Bar) : ℕ → FFStopSt
  | 0 => (buyStop4Step df 0 ⟨false, none, none, false⟩).1
  | i + 1 => (buyStop4Step df (i + 1) (buyStop4S df i)).1

/-- Forward-fill sell-stop state after processing bars `0 .. i`. -/
def sellStop4S (df : List Bar) : ℕ → FFStopSt
  | 0 => (sellStop4Step df 0 ⟨false, none, none, false⟩).1
  | i + 1 => (sellStop4Step df (i + 1) (sellStop4S df i)).1

/-- Forward-fill (`buy_setup_stop`, `buy_setup_stop_active`) cell writes at bar `i`. -/
def buyStop4W (df : List Bar) : ℕ → Option ℚ × Option Bool
  | 0 => (buyStop4Step df 0 ⟨false, none, none, false⟩).2
  | i + 1 => (buyStop4Step df (i + 1) (buyStop4S df i)).2

/-- Forward-fill (`sell_setup_stop`, `sell_setup_stop_active`) cell writes at bar `i`. -/
def sellStop4W (df : List Bar) : ℕ → Option ℚ × Option Bool
  | 0 => (sellStop4Step df 0 ⟨false, none, none, false⟩).2
  | i + 1 => (sellStop4Step df (i + 1) (sellStop4S df i)).2

/-- Final `buy_setup_stop` column of bar `i`. -/
def buy_setup_stop (df : List Bar) (i : ℕ) : Option ℚ :=
  match (buyStop4W df i).1 with
  | some v => some v
  | none => (buyStop3W df i).1

/-- Final `buy_setup_stop_active` column of bar `i`. -/
def buy_setup_stop_active (df : List Bar) (i : ℕ) : Bool :=
  match (buyStop4W df i).2 with
  | some b => b
  | none => ((buyStop3W df i).2).getD false

/-- Final `sell_setup_stop` column of bar `i`. -/
def sell_setup_stop (df : List Bar) (i : ℕ) : Option ℚ :=
  match (sellStop4W df i).1 with
  | some v => some v
  | none => (sellStop3W df i).1

/-- Final `sell_setup_stop_active` column of bar `i`. -/
def sell_setup_stop_active (df : List Bar) (i : ℕ) : Bool :=
  match (sellStop4W df i).2 with
  | some b => b
  | none => ((sellStop3W df i).2).getD false

/-- `_identify_stop_events`, buy-stop trigger flag: the active column fell
from `True` to `False` at bar `i` (loop runs from `i = 1`) with a stop level
present at `i-1`. -/
def buy_stop_triggered (df : List Bar) (i : ℕ) : Bool :=
  decide (1 ≤ i) && buy_setup_stop_active df (i - 1) && !(buy_setup_stop_active df i)
    && (buy_setup_stop df (i - 1)).isSome

/-- `_identify_stop_events`, sell-stop trigger flag. -/
def sell_stop_triggered (df : List Bar) (i : ℕ) : Bool :=
  decide (1 ≤ i) && sell_setup_stop_active df (i - 1) && !(sell_setup_stop_active df i)
    && (sell_setup_stop df (i - 1)).isSome

/-- `_identify_stop_events`, buy-stop reactivation flag: the active column
rose from `False` to `True` at bar `i` and bar `i` is not a fresh setup
completion (`buy_setup[i] != 9`). -/
def buy_stop_reactivated (df : List Bar) (i : ℕ) : Bool :=
  decide (1 ≤ i) && !(buy_setup_stop_active df (i - 1)) && buy_setup_stop_active df i
    && decide (buySetup df i ≠ 9)

/-- `_identify_stop_events`, sell-stop reactivation flag. -/
def sell_stop_reactivated (df : List Bar) (i : ℕ) : Bool :=
  decide (1 ≤ i) && !(sell_setup_stop_active df (i - 1)) && sell_setup_stop_active df i
    && decide (sellSetup df i ≠ 9)

lemma buyStop_completion_step (df : List Bar) (i : ℕ) (h9 : buySetup df i = 9)
    (hlow : buyStopLevel df i < low df i) :
    buyStop3S df i = ⟨some (buyStopLevel df i), none, false⟩ ∧
    buyStop3W df i = (some (buyStopLevel df i), some true) ∧
    buyStop4S df i = ⟨true, some (buyStopLevel df i), none, false⟩ ∧
    buyStop4W df i = (some (buyStopLevel df i), some true) := by
  have h12 := buySetup_nine_ge_twelve df i h9
  obtain ⟨j, rfl⟩ : ∃ j, i = j + 1 := ⟨i - 1, by omega⟩
  have h3S : buyStop3S df (j + 1) = ⟨some (buyStopLevel df (j + 1)), none, false⟩ := by
    rw [buyStop3S]
    simp [buyStop3Step, h9]
  have h3W : buyStop3W df (j + 1) = (some (buyStopLevel df (j + 1)), some true) := by
    rw [buyStop3W]
    simp [buyStop3Step, h9]
  have hnl : ¬ low df (j + 1) ≤ buyStopLevel df (j + 1) := not_le.mpr hlow
  refine ⟨h3S, h3W, ?_, ?_⟩
  · rw [buyStop4S]
    simp [buyStop4Step, h3W, hnl]
  · rw [buyStop4W]
    simp [buyStop4Step, h3W, hnl]

lemma buyStop_quiet_step (df : List Bar) (j : ℕ) (v : ℚ)
    (h3 : buyStop3S df j = ⟨some v, none, false⟩)
    (h4 : buyStop4S df j = ⟨true, some v, none, false⟩)
    (h9 : buySetup df (j + 1) ≠ 9)
    (hgt : v < low df (j + 1)) :
    buyStop3S df (j + 1) = ⟨some v, none, false⟩ ∧
    buyStop3W df (j + 1) = (none, none) ∧
    buyStop4S df (j + 1) = ⟨true, some v, none, false⟩ ∧
    buyStop4W df (j + 1) = (some v, some true) := by
  have hnl : ¬ low df (j + 1) ≤ v := not_le.mpr hgt
  have h3S : buyStop3S df (j + 1) = ⟨some v, none, false⟩ := by
    rw [buyStop3S]
    simp [buyStop3Step, h3, h9, hnl]
  have h3W : buyStop3W df (j + 1) = (none, none) := by
    rw [buyStop3W]
    simp [buyStop3Step, h3, h9, hnl]
  refine ⟨h3S, h3W, ?_, ?_⟩
  · rw [buyStop4S]
    simp [buyStop4Step, h3W, h4, hnl]
  · rw [buyStop4W]
    simp [buyStop4Step, h3W, h4, hnl]

lemma buyStop_trigger_step (df : List Bar) (j : ℕ) (v : ℚ)
    (h3 : buyStop3S df j = ⟨some v, none, false⟩)
    (h4 : buyStop4S df j = ⟨true, some v, none, false⟩)
    (h9 : buySetup df (j + 1) ≠ 9)
    (hle : low df (j + 1) ≤ v) :
    buyStop3S df (j + 1) = ⟨none, some v, true⟩ ∧
    buyStop3W df (j + 1) = (none, some false) ∧
    buyStop4S df (j + 1) = ⟨false, some v, some v, true⟩ ∧
    buyStop4W df (j + 1) = (none, some false) := by
  have hng : ¬ low df (j + 1) > v := not_lt.mpr hle
  have h3S : buyStop3S df (j + 1) = ⟨none, some v, true⟩ := by
    rw [buyStop3S]
    simp [buyStop3Step, h3, h9, hle, hng]
  have h3W : buyStop3W df (j + 1) = (none, some false) := by
    rw [buyStop3W]
    simp [buyStop3Step, h3, h9, hle, hng]
  refine ⟨h3S, h3W, ?_, ?_⟩
  · rw [buyStop4S]
    simp [buyStop4Step, h3W, h4, hle, hng]
  · rw [buyStop4W]
    simp [buyStop4Step, h3W, h4, hle, hng]

lemma buyStop_dormant_step (df : List Bar) (j : ℕ) (v : ℚ)
    (h3 : buyStop3S df j = ⟨none, some v, true⟩)
    (h4 : buyStop4S df j = ⟨false, some v, some v, true⟩)
    (h9 : buySetup df (j + 1) ≠ 9)
    (hle : low df (j + 1) ≤ v) :
    buyStop3S df (j + 1) = ⟨none, some v, true⟩ ∧
    buyStop3W df (j + 1) = (none, none) ∧
    buyStop4S df (j + 1) = ⟨false, some v, some v, true⟩ ∧
    buyStop4W df (j + 1) = (none, none) := by
  have hng : ¬ low df (j + 1) > v := not_lt.mpr hle
  have h3S : buyStop3S df (j + 1) = ⟨none, some v, true⟩ := by
    rw [buyStop3S]
    simp [buyStop3Step, h3, h9, hng]
  have h3W : buyStop3W df (j + 1) = (none, none) := by
    rw [buyStop3W]
    simp [buyStop3Step, h3, h9, hng]
  refine ⟨h3S, h3W, ?_, ?_⟩
  · rw [buyStop4S]
    simp [buyStop4Step, h3W, h4, hng]
  · rw [buyStop4W]
    simp [buyStop4Step, h3W, h4, hng]

lemma buyStop_react_step (df : List Bar) (j : ℕ) (v : ℚ)
    (h3 : buyStop3S df j = ⟨none, some v, true⟩)
    (h4 : buyStop4S df j = ⟨false, some v, some v, true⟩)
    (h9 : buySetup df (j + 1) ≠ 9)
    (hgt : v < low df (j + 1)) :
    buyStop3S df (j + 1) = ⟨some v, none, false⟩ ∧
    buyStop3W df (j + 1) = (some v, some true) ∧
    buyStop4S df (j + 1) = ⟨true, some v, none, false⟩ ∧
    buyStop4W df (j + 1) = (some v, some true) := by
  have hnl : ¬ low df (j + 1) ≤ v := not_le.mpr hgt
  have h3S : buyStop3S df (j + 1) = ⟨some v, none, false⟩ := by
    rw [buyStop3S]
    simp [buyStop3Step, h3, h9, hgt, hnl]
  have h3W : buyStop3W df (j + 1) = (some v, some true) := by
    rw [buyStop3W]
    simp [buyStop3Step, h3, h9, hgt, hnl]
  refine ⟨h3S, h3W, ?_, ?_⟩
  · rw [buyStop4S]
    simp [buyStop4Step, h3W, hnl]
  · rw [buyStop4W]
    simp [buyStop4Step, h3W, hnl]

lemma buyStop_run1 (df : List Bar) (i : ℕ) (h9 : buySetup df i = 9) :
    ∀ m, i ≤ m →
      (∀ j, i < j → j ≤ m → buySetup df j ≠ 9) →
      (∀ j, i ≤ j → j ≤ m → buyStopLevel df i < low df j) →
      buyStop3S df m = ⟨some (buyStopLevel df i), none, false⟩ ∧
      buyStop4S df m = ⟨true, some (buyStopLevel df i), none, false⟩ ∧
      (∀ j, i ≤ j → j ≤ m → buyStop4W df j = (some (buyStopLevel df i), some true)) := by
  intro m hm
  induction m, hm using Nat.le_induction with
  | base =>
    intro _ hcl
    have h := buyStop_completion_step df i h9 (hcl i le_rfl le_rfl)
    refine ⟨h.1, h.2.2.1, fun j h1 h2 => ?_⟩
    have : j = i := le_antisymm h2 h1
    subst this
    exact h.2.2.2
  | succ n hn ih =>
    intro hno hcl
    have ihc := ih (fun j h1 h2 => hno j h1 (by omega)) (fun j h1 h2 => hcl j h1 (by omega))
    have hstep := buyStop_quiet_step df n _ ihc.1 ihc.2.1
      (hno (n + 1) (by omega) le_rfl) (hcl (n + 1) (by omega) le_rfl)
    refine ⟨hstep.1, hstep.2.2.1, fun j h1 h2 => ?_⟩
    rcases Nat.lt_or_ge j (n + 1) with h | h
    · exact ihc.2.2 j h1 (by omega)
    · have : j = n + 1 := by omega
      subst this
      exact hstep.2.2.2

lemma buyStop_run2 (df : List Bar) (t : ℕ) (v : ℚ)
    (h3 : buyStop3S df t = ⟨none, some v, true⟩)
    (h4 : buyStop4S df t = ⟨false, some v, some v, true⟩)
    (hW : buy_setup_stop_active df t = false) :
    ∀ m, t ≤ m →
      (∀ j, t < j → j ≤ m → buySetup df j ≠ 9) →
      (∀ j, t < j → j ≤ m → low df j ≤ v) →
      buyStop3S df m = ⟨none, some v, true⟩ ∧
      buyStop4S df m = ⟨false, some v, some v, true⟩ ∧
      (∀ j, t ≤ j → j ≤ m → buy_setup_stop_active df j = false) := by
  intro m hm
  induction m, hm using Nat.le_induction with
  | base =>
    intro _ _
    refine ⟨h3, h4, fun j h1 h2 => ?_⟩
    have : j = t := le_antisymm h2 h1
    subst this
    exact hW
  | succ n hn ih =>
    intro hno hcl
    have ihc := ih (fun j h1 h2 => hno j h1 (by omega)) (fun j h1 h2 => hcl j h1 (by omega))
    have hstep := buyStop_dormant_step df n _ ihc.1 ihc.2.1
      (hno (n + 1) (by omega) le_rfl) (hcl (n + 1) (by omega) le_rfl)
    refine ⟨hstep.1, hstep.2.2.1, fun j h1 h2 => ?_⟩
    rcases Nat.lt_or_ge j (n + 1) with h | h
    · exact ihc.2.2 j h1 (by omega)
    · have : j = n + 1 := by omega
      subst this
      rw [buy_setup_stop_active, hstep.2.2.2, hstep.2.1]
      rfl

lemma sellStop_completion_step (df : List Bar) (i : ℕ) (h9 : sellSetup df i = 9)
    (hhigh : high df i < sellStopLevel df i) :
    sellStop3S df i = ⟨some (sellStopLevel df i), none, false⟩ ∧
    sellStop3W df i = (some (sellStopLevel df i), some true) ∧
    sellStop4S df i = ⟨true, some (sellStopLevel df i), none, false⟩ ∧
    sellStop4W df i = (some (sellStopLevel df i), some true) := by
  have h12 := sellSetup_nine_ge_twelve df i h9
  obtain ⟨j, rfl⟩ : ∃ j, i = j + 1 := ⟨i - 1, by omega⟩
  have h3S : sellStop3S df (j + 1) = ⟨some (sellStopLevel df (j + 1)), none, false⟩ := by
    rw [sellStop3S]
    simp [sellStop3Step, h9]
  have h3W : sellStop3W df (j + 1) = (some (sellStopLevel df (j + 1)), some true) := by
    rw [sellStop3W]
    simp [sellStop3Step, h9]
  have hnl : ¬ high df (j + 1) ≥ sellStopLevel df (j + 1) := not_le.mpr hhigh
  refine ⟨h3S, h3W, ?_, ?_⟩
  · rw [sellStop4S]
    simp [sellStop4Step, h3W, hnl]
  · rw [sellStop4W]
    simp [sellStop4Step, h3W, hnl]

lemma sellStop_quiet_step (df : List Bar) (j : ℕ) (v : ℚ)
    (h3 : sellStop3S df j = ⟨some v, none, false⟩)
    (h4 : sellStop4S df j = ⟨true, some v, none, false⟩)
    (h9 : sellSetup df (j + 1) ≠ 9)
    (hlt : high df (j + 1) < v) :
    sellStop3S df (j + 1) = ⟨some v, none, false⟩ ∧
    sellStop3W df (j + 1) = (none, none) ∧
    sellStop4S df (j + 1) = ⟨true, some v, none, false⟩ ∧
    sellStop4W df (j + 1) = (some v, some true) := by
  have hnl : ¬ high df (j + 1) ≥ v := not_le.mpr hlt
  have h3S : sellStop3S df (j + 1) = ⟨some v, none, false⟩ := by
    rw [sellStop3S]
    simp [sellStop3Step, h3, h9, hnl]
  have h3W : sellStop3W df (j + 1) = (none, none) := by
    rw [sellStop3W]
    simp [sellStop3Step, h3, h9, hnl]
  refine ⟨h3S, h3W, ?_, ?_⟩
  · rw [sellStop4S]
    simp [sellStop4Step, h3W, h4, hnl]
  · rw [sellStop4W]
    simp [sellStop4Step, h3W, h4, hnl]

lemma sellStop_trigger_step (df : List Bar) (j : ℕ) (v : ℚ)
    (h3 : sellStop3S df j = ⟨some v, none, false⟩)
    (h4 : sellStop4S df j = ⟨true, some v, none, false⟩)
    (h9 : sellSetup df (j + 1) ≠ 9)
    (hge : v ≤ high df (j + 1)) :
    sellStop3S df (j + 1) = ⟨none, some v, true⟩ ∧
    sellStop3W df (j + 1) = (none, some false) ∧
    sellStop4S df (j + 1) = ⟨false, some v, some v, true⟩ ∧
    sellStop4W df (j + 1) = (none, some false) := by
  have hng : ¬ high df (j + 1) < v := not_lt.mpr hge
  have h3S : sellStop3S df (j + 1) = ⟨none, some v, true⟩ := by
    rw [sellStop3S]
    simp [sellStop3Step, h3, h9, hge, hng]
  have h3W : sellStop3W df (j + 1) = (none, some false) := by
    rw [sellStop3W]
    simp [sellStop3Step, h3, h9, hge, hng]
  refine ⟨h3S, h3W, ?_, ?_⟩
  · rw [sellStop4S]
    simp [sellStop4Step, h3W, h4, hge, hng]
  · rw [sellStop4W]
    simp [sellStop4Step, h3W, h4, hge, hng]

lemma sellStop_dormant_step (df : List Bar) (j : ℕ) (v : ℚ)
    (h3 : sellStop3S df j = ⟨none, some v, true⟩)
    (h4 : sellStop4S df j = ⟨false, some v, some v, true⟩)
    (h9 : sellSetup df (j + 1) ≠ 9)
    (hge : v ≤ high df (j + 1)) :
    sellStop3S df (j + 1) = ⟨none, some v, true⟩ ∧
    sellStop3W df (j + 1) = (none, none) ∧
    sellStop4S df (j + 1) = ⟨false, some v, some v, true⟩ ∧
    sellStop4W df (j + 1) = (none, none) := by
  have hng : ¬ high df (j + 1) < v := not_lt.mpr hge
  have h3S : sellStop3S df (j + 1) = ⟨none, some v, true⟩ := by
    rw [sellStop3S]
    simp [sellStop3Step, h3, h9, hng]
  have h3W : sellStop3W df (j + 1) = (none, none) := by
    rw [sellStop3W]
    simp [sellStop3Step, h3, h9, hng]
  refine ⟨h3S, h3W, ?_, ?_⟩
  · rw [sellStop4S]
    simp [sellStop4Step, h3W, h4, hng]
  · rw [sellStop4W]
    simp [sellStop4Step, h3W, h4, hng]

lemma sellStop_react_step (df : List Bar) (j : ℕ) (v : ℚ)
    (h3 : sellStop3S df j = ⟨none, some v, true⟩)
    (h4 : sellStop4S df j = ⟨false, some v, some v, true⟩)
    (h9 : sellSetup df (j + 1) ≠ 9)
    (hlt : high df (j + 1) < v) :
    sellStop3S df (j + 1) = ⟨some v, none, false⟩ ∧
    sellStop3W df (j + 1) = (some v, some true) ∧
    sellStop4S df (j + 1) = ⟨true, some v, none, false⟩ ∧
    sellStop4W df (j + 1) = (some v, some true) := by
  have hnl : ¬ high df (j + 1) ≥ v := not_le.mpr hlt
  have h3S : sellStop3S df (j + 1) = ⟨some v, none, false⟩ := by
    rw [sellStop3S]
    simp [sellStop3Step, h3, h9, hlt, hnl]
  have h3W : sellStop3W df (j + 1) = (some v, some true) := by
    rw [sellStop3W]
    simp [sellStop3Step, h3, h9, hlt, hnl]
  refine ⟨h3S, h3W, ?_, ?_⟩
  · rw [sellStop4S]
    simp [sellStop4Step, h3W, hnl]
  · rw [sellStop4W]
    simp [sellStop4Step, h3W, hnl]

lemma sellStop_run1 (df : List Bar) (i : ℕ) (h9 : sellSetup df i = 9) :
    ∀ m, i ≤ m →
      (∀ j, i < j → j ≤ m → sellSetup df j ≠ 9) →
      (∀ j, i ≤ j → j ≤ m → high df j < sellStopLevel df i) →
      sellStop3S df m = ⟨some (sellStopLevel df i), none, false⟩ ∧
      sellStop4S df m = ⟨true, some (sellStopLevel df i), none, false⟩ ∧
      (∀ j, i ≤ j → j ≤ m → sellStop4W df j = (some (sellStopLevel df i), some true)) := by
  intro m hm
  induction m, hm using Nat.le_induction with
  | base =>
    intro _ hcl
    have h := sellStop_completion_step df i h9 (hcl i le_rfl le_rfl)
    refine ⟨h.1, h.2.2.1, fun j h1 h2 => ?_⟩
    have : j = i := le_antisymm h2 h1
    subst this
    exact h.2.2.2
  | succ n hn ih =>
    intro hno hcl
    have ihc := ih (fun j h1 h2 => hno j h1 (by omega)) (fun j h1 h2 => hcl j h1 (by omega))
    have hstep := sellStop_quiet_step df n _ ihc.1 ihc.2.1
      (hno (n + 1) (by omega) le_rfl) (hcl (n + 1) (by omega) le_rfl)
    refine ⟨hstep.1, hstep.2.2.1, fun j h1 h2 => ?_⟩
    rcases Nat.lt_or_ge j (n + 1) with h | h
    · exact ihc.2.2 j h1 (by omega)
    · have : j = n + 1 := by omega
      subst this
      exact hstep.2.2.2

lemma sellStop_run2 (df : List Bar) (t : ℕ) (v : ℚ)
    (h3 : sellStop3S df t = ⟨none, some v, true⟩)
    (h4 : sellStop4S df t = ⟨false, some v, some v, true⟩)
    (hW : sell_setup_stop_active df t = false) :
    ∀ m, t ≤ m →
      (∀ j, t < j → j ≤ m → sellSetup df j ≠ 9) →
      (∀ j, t < j → j ≤ m → v ≤ high df j) →
      sellStop3S df m = ⟨none, some v, true⟩ ∧
      sellStop4S df m = ⟨false, some v, some v, true⟩ ∧
      (∀ j, t ≤ j → j ≤ m → sell_setup_stop_active df j = false) := by
  intro m hm
  induction m, hm using Nat.le_induction with
  | base =>
    intro _ _
    refine ⟨h3, h4, fun j h1 h2 => ?_⟩
    have : j = t := le_antisymm h2 h1
    subst this
    exact hW
  | succ n hn ih =>
    intro hno hcl
    have ihc := ih (fun j h1 h2 => hno j h1 (by omega)) (fun j h1 h2 => hcl j h1 (by omega))
    have hstep := sellStop_dormant_step df n _ ihc.1 ihc.2.1
      (hno (n + 1) (by omega) le_rfl) (hcl (n + 1) (by omega) le_rfl)
    refine ⟨hstep.1, hstep.2.2.1, fun j h1 h2 => ?_⟩
    rcases Nat.lt_or_ge j (n + 1) with h | h
    · exact ihc.2.2 j h1 (by omega)
    · have : j = n + 1 := by omega
      subst this
      rw [sell_setup_stop_active, hstep.2.2.2, hstep.2.1]
      rfl

/-- C4: on the bar where a buy setup reaches 9, the output `buy_setup_stop`
is the window's minimum low minus the `high - low` range of the bar attaining
that minimum; it is activated and forward-projected unchanged, and it
triggers — the active flag falls and `buy_stop_triggered` is recorded — at
the first bar whose low reaches the stop.  Sell side symmetric: maximum high
plus the range of the maximum-high bar, triggering at the first bar with
`high ≥ stop`. -/
theorem C4_setup_stop (df : List Bar) (i t : ℕ) (hit : i < t) (ht : t < df.length) :
    ((buySetup df i = 9 ∧ (∀ j, i < j → j ≤ t → buySetup df j ≠ 9) ∧
        (∀ j, i ≤ j → j < t → buyStopLevel df i < low df j) ∧
        low df t ≤ buyStopLevel df i) →
      buyStopLevel df i =
        listMin (windowLows df i) -
          (high df (firstMinLowIdx df i) - low df (firstMinLowIdx df i)) ∧
      (∀ j, i ≤ j → j < t →
        buy_setup_stop df j = some (buyStopLevel df i) ∧
        buy_setup_stop_active df j = true) ∧
      buy_setup_stop_active df t = false ∧
      buy_stop_triggered df t = true)
    ∧ ((sellSetup df i = 9 ∧ (∀ j, i < j → j ≤ t → sellSetup df j ≠ 9) ∧
        (∀ j, i ≤ j → j < t → high df j < sellStopLevel df i) ∧
        sellStopLevel df i ≤ high df t) →
      sellStopLevel df i =
        listMax (windowHighs df i) +
          (high df (firstMaxHighIdx df i) - low df (firstMaxHighIdx df i)) ∧
      (∀ j, i ≤ j → j < t →
        sell_setup_stop df j = some (sellStopLevel df i) ∧
        sell_setup_stop_active df j = true) ∧
      sell_setup_stop_active df t = false ∧
      sell_stop_triggered df t = true) := by
  constructor
  · rintro ⟨h9, hno, hcl, htr⟩
    obtain ⟨n, rfl⟩ : ∃ n, t = n + 1 := ⟨t - 1, by omega⟩
    have hrun := buyStop_run1 df i h9 n (by omega)
      (fun j h1 h2 => hno j h1 (by omega))
      (fun j h1 h2 => hcl j h1 (by omega))
    have htrig := buyStop_trigger_step df n _ hrun.1 hrun.2.1
      (hno (n + 1) (by omega) le_rfl) htr
    have hwn := hrun.2.2 n (by omega) le_rfl
    have han : buy_setup_stop_active df n = true := by
      rw [buy_setup_stop_active, hwn]
    have hsn : buy_setup_stop df n = some (buyStopLevel df i) := by
      rw [buy_setup_stop, hwn]
    have hat : buy_setup_stop_active df (n + 1) = false := by
      rw [buy_setup_stop_active, htrig.2.2.2]
    refine ⟨rfl, fun j h1 h2 => ?_, hat, ?_⟩
    · have hw := hrun.2.2 j h1 (by omega)
      constructor
      · rw [buy_setup_stop, hw]
      · rw [buy_setup_stop_active, hw]
    · rw [buy_stop_triggered]
      simp [han, hat, hsn]
  · rintro ⟨h9, hno, hcl, htr⟩
    obtain ⟨n, rfl⟩ : ∃ n, t = n + 1 := ⟨t - 1, by omega⟩
    have hrun := sellStop_run1 df i h9 n (by omega)
      (fun j h1 h2 => hno j h1 (by omega))
      (fun j h1 h2 => hcl j h1 (by omega))
    have htrig := sellStop_trigger_step df n _ hrun.1 hrun.2.1
      (hno (n + 1) (by omega) le_rfl) htr
    have hwn := hrun.2.2 n (by omega) le_rfl
    have han : sell_setup_stop_active df n = true := by
      rw [sell_setup_stop_active, hwn]
    have hsn : sell_setup_stop df n = some (sellStopLevel df i) := by
      rw [sell_setup_stop, hwn]
    have hat : sell_setup_stop_active df (n + 1) = false := by
      rw [sell_setup_stop_active, htrig.2.2.2]
    refine ⟨rfl, fun j h1 h2 => ?_, hat, ?_⟩
    · have hw := hrun.2.2 j h1 (by omega)
      constructor
      · rw [sell_setup_stop, hw]
      · rw [sell_setup_stop_active, hw]
    · rw [sell_stop_triggered]
      simp [han, hat, hsn]

/-- C5: after a buy setup stop triggered at bar `t`, the stop and its
reactivation memory stay dormant while lows remain at or below the stop, and
the first subsequent bar whose low is strictly above the triggered stop price
reactivates it at the same price — the active flag rises again and
`buy_stop_reactivated` is true on exactly that bar — resuming the forward
projection.  Sell side symmetric with `high < stop`.  (A fresh same-direction
setup completion instead installs a new stop and clears the memory:
`buyStop3Step`/`buyStop4Step` reset `inact`/`trig` on completion and pickup.) -/
theorem C5_stop_reactivation (df : List Bar) (i t r : ℕ) (hit : i < t) (htr : t < r)
    (hr : r < df.length) :
    ((buySetup df i = 9 ∧ (∀ j, i < j → j ≤ r → buySetup df j ≠ 9) ∧
        (∀ j, i ≤ j → j < t → buyStopLevel df i < low df j) ∧
        low df t ≤ buyStopLevel df i ∧
        (∀ j, t < j → j < r → low df j ≤ buyStopLevel df i) ∧
        buyStopLevel df i < low df r) →
      (∀ j, t ≤ j → j < r →
        buy_setup_stop_active df j = false ∧ buy_stop_reactivated df j = false) ∧
      buy_setup_stop df r = some (buyStopLevel df i) ∧
      buy_setup_stop_active df r = true ∧
      buy_stop_reactivated df r = true)
    ∧ ((sellSetup df i = 9 ∧ (∀ j, i < j → j ≤ r → sellSetup df j ≠ 9) ∧
        (∀ j, i ≤ j → j < t → high df j < sellStopLevel df i) ∧
        sellStopLevel df i ≤ high df t ∧
        (∀ j, t < j → j < r → sellStopLevel df i ≤ high df j) ∧
        high df r < sellStopLevel df i) →
      (∀ j, t ≤ j → j < r →
        sell_setup_stop_active df j = false ∧ sell_stop_reactivated df j = false) ∧
      sell_setup_stop df r = some (sellStopLevel df i) ∧
      sell_setup_stop_active df r = true ∧
      sell_stop_reactivated df r = true) := by
  constructor
  · rintro ⟨h9, hno, hcl, htrg, hdm, hre⟩
    obtain ⟨n, rfl⟩ : ∃ n, t = n + 1 := ⟨t - 1, by omega⟩
    have hrun := buyStop_run1 df i h9 n (by omega)
      (fun j h1 h2 => hno j h1 (by omega))
      (fun j h1 h2 => hcl j h1 (by omega))
    have htrig := buyStop_trigger_step df n _ hrun.1 hrun.2.1
      (hno (n + 1) (by omega) (by omega)) htrg
    have hat : buy_setup_stop_active df (n + 1) = false := by
      rw [buy_setup_stop_active, htrig.2.2.2]
    obtain ⟨p, rfl⟩ : ∃ p, r = p + 1 := ⟨r - 1, by omega⟩
    have hrun2 := buyStop_run2 df (n + 1) _ htrig.1 htrig.2.2.1 hat p (by omega)
      (fun j h1 h2 => hno j (by omega) (by omega))
      (fun j h1 h2 => hdm j h1 (by omega))
    have hreact := buyStop_react_step df p _ hrun2.1 hrun2.2.1
      (hno (p + 1) (by omega) le_rfl) hre
    have hap : buy_setup_stop_active df p = false :=
      hrun2.2.2 p (by omega) le_rfl
    have har : buy_setup_stop_active df (p + 1) = true := by
      rw [buy_setup_stop_active, hreact.2.2.2]
    have hsr : buy_setup_stop df (p + 1) = some (buyStopLevel df i) := by
      rw [buy_setup_stop, hreact.2.2.2]
    refine ⟨fun j h1 h2 => ?_, hsr, har, ?_⟩
    · have haj : buy_setup_stop_active df j = false := hrun2.2.2 j h1 (by omega)
      refine ⟨haj, ?_⟩
      rw [buy_stop_reactivated]
      simp [haj]
    · rw [buy_stop_reactivated]
      simp [hap, har, hno (p + 1) (by omega) le_rfl]
  · rintro ⟨h9, hno, hcl, htrg, hdm, hre⟩
    obtain ⟨n, rfl⟩ : ∃ n, t = n + 1 := ⟨t - 1, by omega⟩
    have hrun := sellStop_run1 df i h9 n (by omega)
      (fun j h1 h2 => hno j h1 (by omega))
      (fun j h1 h2 => hcl j h1 (by omega))
    have htrig := sellStop_trigger_step df n _ hrun.1 hrun.2.1
      (hno (n + 1) (by omega) (by omega)) htrg
    have hat : sell_setup_stop_active df (n + 1) = false := by
      rw [sell_setup_stop_active, htrig.2.2.2]
    obtain ⟨p, rfl⟩ : ∃ p, r = p + 1 := ⟨r - 1, by omega⟩
    have hrun2 := sellStop_run2 df (n + 1) _ htrig.1 htrig.2.2.1 hat p (by omega)
      (fun j h1 h2 => hno j (by omega) (by omega))
      (fun j h1 h2 => hdm j h1 (by omega))
    have hreact := sellStop_react_step df p _ hrun2.1 hrun2.2.1
      (hno (p + 1) (by omega) le_rfl) hre
    have hap : sell_setup_stop_active df p = false :=
      hrun2.2.2 p (by omega) le_rfl
    have har : sell_setup_stop_active df (p + 1) = true := by
      rw [sell_setup_stop_active, hreact.2.2.2]
    have hsr : sell_setup_stop df (p + 1) = some (sellStopLevel df i) := by
      rw [sell_setup_stop, hreact.2.2.2]
    refine ⟨fun j h1 h2 => ?_, hsr, har, ?_⟩
    · have haj : sell_setup_stop_active df j = false := hrun2.2.2 j h1 (by omega)
      refine ⟨haj, ?_⟩
      rw [sell_stop_reactivated]
      simp [haj]
    · rw [sell_stop_reactivated]
      simp [hap, har, hno (p + 1) (by omega) le_rfl]

/-- Scenario C/D input: a buy setup completes at bar 12; the window's lowest
low is 5, attained at bar 8 whose high is 5.5 and low is 5, so the setup stop
is `5 - 0.5 = 4.5`; bar 13 (low 4) triggers the stop and bar 14 (low 5) is
the first later bar with `low > 4.5`, reactivating it. -/
def dfC : List Bar :=
  [⟨11, 9.5, 10⟩, ⟨11, 9.5, 10⟩, ⟨11, 9.5, 10⟩, ⟨11, 9.5, 10⟩,
   ⟨9.5, 8.5, 9⟩, ⟨9.5, 8.5, 9⟩, ⟨9.5, 8.5, 9⟩, ⟨9.5, 8.5, 9⟩,
   ⟨5.5, 5, 5.5⟩, ⟨8.5, 7.5, 8⟩, ⟨8.5, 7.5, 8⟩, ⟨8.5, 7.5, 8⟩,
   ⟨5.5, 5, 5⟩, ⟨6, 4, 4.5⟩, ⟨6, 5, 5.5⟩]

theorem C4_setup_stop_witness :
    buyStopLevel dfC 12 = 4.5 ∧ buy_setup_stop dfC 12 = some 4.5 ∧
    buy_setup_stop_active dfC 12 = true ∧ buy_setup_stop_active dfC 13 = false ∧
    buy_stop_triggered dfC 13 = true := by
  have h := (C4_setup_stop dfC 12 13 (by omega) (by decide)).1
    ⟨by with_unfolding_all decide,
     fun j h1 h2 => by
       have hj : j = 13 := by omega
       subst hj
       with_unfolding_all decide,
     fun j h1 h2 => by
       have hj : j = 12 := by omega
       subst hj
       with_unfolding_all decide,
     by with_unfolding_all decide⟩
  have hv : buyStopLevel dfC 12 = 4.5 := by with_unfolding_all decide
  rw [hv] at h
  exact ⟨hv, (h.2.1 12 le_rfl (by omega)).1, (h.2.1 12 le_rfl (by omega)).2,
    h.2.2.1, h.2.2.2⟩

theorem C5_stop_reactivation_witness :
    buy_setup_stop dfC 14 = some 4.5 ∧ buy_setup_stop_active dfC 14 = true ∧
    buy_stop_reactivated dfC 14 = true ∧ buy_stop_reactivated dfC 13 = false := by
  have h := (C5_stop_reactivation dfC 12 13 14 (by omega) (by omega) (by decide)).1
    ⟨by with_unfolding_all decide,
     fun j h1 h2 => by
       have hj : j = 13 ∨ j = 14 := by omega
       rcases hj with rfl | rfl <;> with_unfolding_all decide,
     fun j h1 h2 => by
       have hj : j = 12 := by omega
       subst hj
       with_unfolding_all decide,
     by with_unfolding_all decide,
     fun j h1 h2 => by omega,
     by with_unfolding_all decide⟩
  have hv : buyStopLevel dfC 12 = 4.5 := by with_unfolding_all decide
  rw [hv] at h
  exact ⟨h.2.1, h.2.2.1, h.2.2.2, (h.1 13 le_rfl (by omega)).2⟩

/-!
## Countdown engine: first pass of `_calculate_countdown_phases` with
`_handle_buy_setup_completion`, `_handle_sell_setup_completion`,
`_process_buy_countdown`, `_process_sell_countdown`, and
`_identify_perfect_setups`.

The second pass of `_calculate_countdown_phases` (countdown stop levels) and
the countdown-stop writes inside the process functions only touch the
`*_countdown_stop*` columns, which no claim references; the countdown count /
active / perfect-13 columns are final after the first pass, so the embedding
covers exactly those.
-/

/-- `_identify_perfect_setups`, buy side (loop from `i = 2`): a completed buy
setup is perfect when the completion bar's low undercuts the low 3 bars
earlier. -/
def perfect_buy_9 (df : List Bar) (i : ℕ) : Bool :=
  decide (2 ≤ i) && decide (buySetup df i = 9) && decide (low df i < low df (i - 3))

/-- `_identify_perfect_setups`, sell side. -/
def perfect_sell_9 (df : List Bar) (i : ℕ) : Bool :=
  decide (2 ≤ i) && decide (sellSetup df i = 9) && decide (high df i > high df (i - 3))

/-- Countdown engine state threaded through the first pass of
`_calculate_countdown_phases`: the active flags, the accumulated qualifying
bar indices, the snapshotted cancellation references (`buy_tdst_level` /
`sell_tdst_level` local variables) and the (never again read)
`current_buy_setup_idx` / `current_sell_setup_idx`. -/
structure CdState where
  buyActive : Bool
  buyBars : List ℕ
  buyRef : Option ℚ
  sellActive : Bool
  sellBars : List ℕ
  sellRef : Option ℚ
  buySetupIdx : Option ℕ
  sellSetupIdx : Option ℕ
  deriving DecidableEq, Repr

/-- The per-bar dataframe writes of the countdown pass: `buy_countdown`,
`buy_countdown_active`, `perfect_buy_13` and the sell counterparts.  (The
active columns are integer 0/1 in the source; they are modelled as `Bool`.) -/
structure CdWrites where
  buyCount : Option ℕ
  buyActive : Option Bool
  perfectBuy : Bool
  sellCount : Option ℕ
  sellActive : Option Bool
  perfectSell : Bool
  deriving DecidableEq, Repr

/-- No writes. -/
def noCdWrites : CdWrites := ⟨none, none, false, none, none, false⟩

/-- Sequencing of two write sets on the same bar: the later write wins per
cell (the perfect flags are only ever raised, hence `||`). -/
def mergeW (a b : CdWrites) : CdWrites :=
  ⟨b.buyCount.orElse (fun _ => a.buyCount),
   b.buyActive.orElse (fun _ => a.buyActive),
   a.perfectBuy || b.perfectBuy,
   b.sellCount.orElse (fun _ => a.sellCount),
   b.sellActive.orElse (fun _ => a.sellActive),
   a.perfectSell || b.perfectSell⟩

/-- `df["high"].iloc[i-8 : i+1]` as used by the completion handlers (the
countdown loop starts at `i = 9`, so the slice always has 9 bars). -/
def cdWindowHighs (df : List Bar) (i : ℕ) : List ℚ :=
  (List.range' (i - 8) 9).map (high df)

/-- `df["low"].iloc[i-8 : i+1]` as used by the completion handlers. -/
def cdWindowLows (df : List Bar) (i : ℕ) : List ℚ :=
  (List.range' (i - 8) 9).map (low df)

/-- `_handle_buy_setup_completion`: if a sell countdown is active, reset it
(writing 0 into both sell countdown cells of this bar); then start a new buy
countdown unconditionally — clear the accumulated qualifying bars, record the
setup index, write `buy_countdown_active = 1` and snapshot the highest high
of the 9-bar setup window as the countdown's cancellation reference. -/
def handleBuySetupCompletion (df : List Bar) (i : ℕ) (s : CdState) :
    CdState × CdWrites :=
  let r1 : CdState × CdWrites :=
    if s.sellActive then
      ({ s with sellActive := false, sellBars := [], sellSetupIdx := none,
                sellRef := none },
       { noCdWrites with sellActive := some false, sellCount := some 0 })
    else (s, noCdWrites)
  ({ r1.1 with buyActive := true, buyBars := [], buySetupIdx := some i,
               buyRef := some (listMax (cdWindowHighs df i)) },
   { r1.2 with buyActive := some true })

/-- `_handle_sell_setup_completion` (mirror image). -/
def handleSellSetupCompletion (df : List Bar) (i : ℕ) (s : CdState) :
    CdState × CdWrites :=
  let r1 : CdState × CdWrites :=
    if s.buyActive then
      ({ s with buyActive := false, buyBars := [], buySetupIdx := none,
                buyRef := none },
       { noCdWrites with buyActive := some false, buyCount := some 0 })
    else (s, noCdWrites)
  ({ r1.1 with sellActive := true, sellBars := [], sellSetupIdx := some i,
               sellRef := some (listMin (cdWindowLows df i)) },
   { r1.2 with sellActive := some true })

/-- `_process_buy_countdown` (called only while the buy countdown is active):
mark the bar active, cancel if the close crosses above the snapshotted
reference (count cell reset to 0, accumulated bars cleared, qualification
pre-empted), otherwise qualify when `close[i] <= low[i-2]` — appending the
bar and writing the accumulated count, with the perfection test against the
8th qualifying bar and deactivation at count 13 — and on a non-qualifying
bar re-write the accumulated count if any bars exist.  (The countdown-stop
write at count 13 touches only the out-of-scope stop columns.) -/
def processBuyCountdown (df : List Bar) (i : ℕ) (s : CdState) :
    CdState × CdWrites :=
  let w0 : CdWrites := { noCdWrites with buyActive := some true }
  let cancel : Bool :=
    match s.buyRef with
    | some L => decide (close df i > L)
    | none => false
  if cancel then
    ({ s with buyActive := false, buyBars := [] }, { w0 with buyCount := some 0 })
  else if 2 ≤ i ∧ close df i ≤ low df (i - 2) then
    let bars := s.buyBars ++ [i]
    if bars.length = 13 then
      ({ s with buyActive := false, buyBars := bars },
       { w0 with buyCount := some bars.length,
                 perfectBuy := decide (close df i ≤ low df (bars.getD 7 0)) })
    else
      ({ s with buyBars := bars }, { w0 with buyCount := some bars.length })
  else
    (s, if s.buyBars.isEmpty then w0 else { w0 with buyCount := some s.buyBars.length })

/-- `_process_sell_countdown` (mirror image: cancel on a close below the
reference, qualify when `close[i] >= high[i-2]`, perfection against the 8th
qualifying bar's high). -/
def processSellCountdown (df : List Bar) (i : ℕ) (s : CdState) :
    CdState × CdWrites :=
  let w0 : CdWrites := { noCdWrites with sellActive := some true }
  let cancel : Bool :=
    match s.sellRef with
    | some L => decide (close df i < L)
    | none => false
  if cancel then
    ({ s with sellActive := false, sellBars := [] }, { w0 with sellCount := some 0 })
  else if 2 ≤ i ∧ close df i ≥ high df (i - 2) then
    let bars := s.sellBars ++ [i]
    if bars.length = 13 then
      ({ s with sellActive := false, sellBars := bars },
       { w0 with sellCount := some bars.length,
                 perfectSell := decide (close df i ≥ high df (bars.getD 7 0)) })
    else
      ({ s with sellBars := bars }, { w0 with sellCount := some bars.length })
  else
    (s, if s.sellBars.isEmpty then w0 else { w0 with sellCount := some s.sellBars.length })

/-- One bar of the first pass of `_calculate_countdown_phases`: handle a buy
setup completion, then a sell setup completion, then process the buy
countdown if active, then the sell countdown if active; the bar's cell
writes are merged in that order. -/
def cdStep (df : List Bar) (i : ℕ) (s : CdState) : CdState × CdWrites :=
  let r1 := if buySetup df i = 9 then handleBuySetupCompletion df i s
            else (s, noCdWrites)
  let r2 := if sellSetup df i = 9 then handleSellSetupCompletion df i r1.1
            else (r1.1, noCdWrites)
  let r3 := if r2.1.buyActive then processBuyCountdown df i r2.1
            else (r2.1, noCdWrites)
  let r4 := if r3.1.sellActive then processSellCountdown df i r3.1
            else (r3.1, noCdWrites)
  (r4.1, mergeW (mergeW (mergeW r1.2 r2.2) r3.2) r4.2)

/-- The idle initial countdown state. -/
def cdInit : CdState := ⟨false, [], none, false, [], none, none, none⟩

/-- Countdown state after the first pass has processed bars `9 .. i` (the
loop is `for i in range(9, len(df))`; before bar 9 nothing has run). -/
def cdState (df : List Bar) : ℕ → CdState
  | 0 => cdInit
  | i + 1 => if i + 1 < 9 then cdInit else (cdStep df (i + 1) (cdState df i)).1

/-- The countdown cell writes at bar `i` (no writes before bar 9). -/
def cdWrites (df : List Bar) (i : ℕ) : CdWrites :=
  match i with
  | 0 => noCdWrites
  | i + 1 => if i + 1 < 9 then noCdWrites else (cdStep df (i + 1) (cdState df i)).2

/-- Final `buy_countdown` column (initialised to 0). -/
def buy_countdown (df : List Bar) (i : ℕ) : ℕ := ((cdWrites df i).buyCount).getD 0

/-- Final `buy_countdown_active` column (integer 0/1 in the source,
modelled as `Bool`, initialised to 0). -/
def buy_countdown_active (df : List Bar) (i : ℕ) : Bool :=
  ((cdWrites df i).buyActive).getD false

/-- Final `perfect_buy_13` column. -/
def perfect_buy_13 (df : List Bar) (i : ℕ) : Bool := (cdWrites df i).perfectBuy

/-- Final `sell_countdown` column. -/
def sell_countdown (df : List Bar) (i : ℕ) : ℕ := ((cdWrites df i).sellCount).getD 0

/-- Final `sell_countdown_active` column. -/
def sell_countdown_active (df : List Bar) (i : ℕ) : Bool :=
  ((cdWrites df i).sellActive).getD false

/-- Final `perfect_sell_13` column. -/
def perfect_sell_13 (df : List Bar) (i : ℕ) : Bool := (cdWrites df i).perfectSell

/-- C6: while a countdown is active, a bar whose close crosses strictly past
the countdown's snapshotted reference cancels it on that same bar — the
written count is 0, the countdown becomes inactive, the accumulated
qualifying bars are cleared — and the bar is never counted as qualifying
(the cancellation branch returns before the qualification check, so this
holds even when `close[i] ≤ low[i-2]`).  Sell side symmetric with a close
strictly below the reference. -/
theorem C6_countdown_cancellation (df : List Bar) (i : ℕ) (s : CdState) (L : ℚ) :
    ((s.buyRef = some L ∧ L < close df i) →
      (processBuyCountdown df i s).1.buyActive = false ∧
      (processBuyCountdown df i s).1.buyBars = [] ∧
      (processBuyCountdown df i s).2.buyCount = some 0 ∧
      i ∉ (processBuyCountdown df i s).1.buyBars)
    ∧ ((s.sellRef = some L ∧ close df i < L) →
      (processSellCountdown df i s).1.sellActive = false ∧
      (processSellCountdown df i s).1.sellBars = [] ∧
      (processSellCountdown df i s).2.sellCount = some 0 ∧
      i ∉ (processSellCountdown df i s).1.sellBars) := by
  constructor
  · rintro ⟨href, hgt⟩
    simp [processBuyCountdown, href, hgt]
  · rintro ⟨href, hlt⟩
    simp [processSellCountdown, href, hlt]

theorem C6_countdown_cancellation_witness :
    (processBuyCountdown dfA 9 ⟨true, [5], some 10, false, [], none, some 5, none⟩).1.buyActive
        = false ∧
    (processBuyCountdown dfA 9 ⟨true, [5], some 10, false, [], none, some 5, none⟩).2.buyCount
        = some 0 := by
  have h := (C6_countdown_cancellation dfA 9
      ⟨true, [5], some 10, false, [], none, some 5, none⟩ 10).1
    ⟨rfl, by with_unfolding_all decide⟩
  exact ⟨h.1, h.2.2.1⟩

/-- C7: while a countdown is active and not cancelled at bar `i`, the bar
qualifies exactly when `close[i] ≤ low[i-2]`: on qualification the bar index
is appended and the written count is the number of qualifying bars
accumulated so far; when that count reaches 13 the countdown deactivates and
`perfect_buy_13` is written at that bar iff the close is at or below the low
of the 8th qualifying bar; on a non-qualifying bar the state is unchanged
and the previously accumulated count (not 0) is re-written when any
qualifying bars exist.  Sell side symmetric with `close[i] ≥ high[i-2]` and
highs. -/
theorem C7_countdown_qualification (df : List Bar) (i : ℕ) (s : CdState) (L : ℚ)
    (hi : 2 ≤ i) :
    ((s.buyRef = some L ∧ ¬ L < close df i) →
      ((close df i ≤ low df (i - 2)) →
        (processBuyCountdown df i s).1.buyBars = s.buyBars ++ [i] ∧
        (processBuyCountdown df i s).2.buyCount = some (s.buyBars.length + 1) ∧
        (s.buyBars.length + 1 = 13 →
          (processBuyCountdown df i s).1.buyActive = false ∧
          ((processBuyCountdown df i s).2.perfectBuy = true ↔
            close df i ≤ low df ((s.buyBars ++ [i]).getD 7 0))) ∧
        (s.buyBars.length + 1 ≠ 13 →
          (processBuyCountdown df i s).1.buyActive = s.buyActive))
      ∧ (¬(close df i ≤ low df (i - 2)) →
        (processBuyCountdown df i s).1 = s ∧
        (processBuyCountdown df i s).2.buyCount =
          (if s.buyBars.isEmpty then none else some s.buyBars.length)))
    ∧ ((s.sellRef = some L ∧ ¬ close df i < L) →
      ((high df (i - 2) ≤ close df i) →
        (processSellCountdown df i s).1.sellBars = s.sellBars ++ [i] ∧
        (processSellCountdown df i s).2.sellCount = some (s.sellBars.length + 1) ∧
        (s.sellBars.length + 1 = 13 →
          (processSellCountdown df i s).1.sellActive = false ∧
          ((processSellCountdown df i s).2.perfectSell = true ↔
            high df ((s.sellBars ++ [i]).getD 7 0) ≤ close df i)) ∧
        (s.sellBars.length + 1 ≠ 13 →
          (processSellCountdown df i s).1.sellActive = s.sellActive))
      ∧ (¬(high df (i - 2) ≤ close df i) →
        (processSellCountdown df i s).1 = s ∧
        (processSellCountdown df i s).2.sellCount =
          (if s.sellBars.isEmpty then none else some s.sellBars.length))) := by
  constructor
  · rintro ⟨href, hnc⟩
    constructor
    · intro hq
      by_cases h13 : s.buyBars.length + 1 = 13
      · refine ⟨?_, ?_, fun _ => ⟨?_, ?_⟩, fun hn => absurd h13 hn⟩ <;>
          simp [processBuyCountdown, href, hnc, hq, hi, h13]
      · refine ⟨?_, ?_, fun hc => absurd hc h13, fun _ => ?_⟩ <;>
          simp [processBuyCountdown, href, hnc, hq, hi, h13]
    · intro hq
      constructor
      · simp [processBuyCountdown, href, hnc, hq, hi]
      · simp only [processBuyCountdown, href, hnc, hq, hi]
        simp [hq]
        split <;> simp [noCdWrites]
  · rintro ⟨href, hnc⟩
    constructor
    · intro hq
      by_cases h13 : s.sellBars.length + 1 = 13
      · refine ⟨?_, ?_, fun _ => ⟨?_, ?_⟩, fun hn => absurd h13 hn⟩ <;>
          simp [processSellCountdown, href, hnc, hq, hi, h13]
      · refine ⟨?_, ?_, fun hc => absurd hc h13, fun _ => ?_⟩ <;>
          simp [processSellCountdown, href, hnc, hq, hi, h13]
    · intro hq
      constructor
      · simp [processSellCountdown, href, hnc, hq, hi]
      · simp only [processSellCountdown, href, hnc, hq, hi]
        simp [hq]
        split <;> simp [noCdWrites]

theorem C7_countdown_qualification_witness :
    (processBuyCountdown dfA 14 ⟨true, [0, 1, 2, 3, 4, 5, 6, 7, 8, 9, 10, 11],
        some 1000, false, [], none, none, none⟩).2.buyCount = some 13 ∧
    (processBuyCountdown dfA 14 ⟨true, [0, 1, 2, 3, 4, 5, 6, 7, 8, 9, 10, 11],
        some 1000, false, [], none, none, none⟩).1.buyActive = false ∧
    (processBuyCountdown dfA 14 ⟨true, [0, 1, 2, 3, 4, 5, 6, 7, 8, 9, 10, 11],
        some 1000, false, [], none, none, none⟩).2.perfectBuy = true := by
  have h := ((C7_countdown_qualification dfA 14 ⟨true, [0, 1, 2, 3, 4, 5, 6, 7, 8, 9, 10, 11],
      some 1000, false, [], none, none, none⟩ 1000 (by omega)).1
    ⟨rfl, by with_unfolding_all decide⟩).1 (by with_unfolding_all decide)
  refine ⟨h.2.1, (h.2.2.1 (by decide)).1, ?_⟩
  exact (h.2.2.1 (by decide)).2.mpr (by with_unfolding_all decide)

/-- C1 (amended): recycling is unconditional.  `_handle_buy_setup_completion`
— invoked by `calculate_tdsequential` at every bar where `buy_setup == 9`,
whether or not a buy countdown is already running — always clears the
accumulated qualifying bars, re-activates the countdown and re-snapshots the
cancellation reference from the new setup's 9-bar window; no comparison with
the original setup's lows (or perfection) is ever made.  It also clears an
active opposite-direction countdown.  Sell side symmetric. -/
theorem C1_recycle_unconditional (df : List Bar) (i : ℕ) (s : CdState) :
    ((handleBuySetupCompletion df i s).1.buyActive = true ∧
     (handleBuySetupCompletion df i s).1.buyBars = [] ∧
     (handleBuySetupCompletion df i s).1.buyRef =
        some (listMax (cdWindowHighs df i)) ∧
     (s.sellActive = true →
       (handleBuySetupCompletion df i s).1.sellActive = false ∧
       (handleBuySetupCompletion df i s).2.sellCount = some 0))
    ∧ ((handleSellSetupCompletion df i s).1.sellActive = true ∧
       (handleSellSetupCompletion df i s).1.sellBars = [] ∧
       (handleSellSetupCompletion df i s).1.sellRef =
          some (listMin (cdWindowLows df i)) ∧
       (s.buyActive = true →
         (handleSellSetupCompletion df i s).1.buyActive = false ∧
         (handleSellSetupCompletion df i s).2.buyCount = some 0)) := by
  constructor
  · rw [handleBuySetupCompletion]
    by_cases hs : s.sellActive = true
    · simp [hs, noCdWrites]
    · simp [hs, noCdWrites]
  · rw [handleSellSetupCompletion]
    by_cases hs : s.buyActive = true
    · simp [hs, noCdWrites]
    · simp [hs, noCdWrites]

set_option maxRecDepth 400000

/-- The C1 counterexample input: closes fall by 1 each bar, so a buy setup
completes at bar 12 (starting a buy countdown that accumulates qualifying
bars 12 and 13) and a second buy setup completes at bar 21.  Bar 21's low
(70) is *not* below the low of bar 12 (40) and the new setup is *not*
perfected (`low[21] = 70 ≥ low[18] = 50`), so under the claim's recycle rule
the countdown would keep its two accumulated qualifying bars and its
reference 97. -/
def dfC1 : List Bar :=
  [⟨101, 99, 100⟩, ⟨100, 98, 99⟩, ⟨99, 97, 98⟩, ⟨98, 96, 97⟩,
   ⟨97, 95, 96⟩, ⟨96, 94, 95⟩, ⟨95, 93, 94⟩, ⟨94, 92, 93⟩,
   ⟨93, 91, 92⟩, ⟨92, 90, 91⟩, ⟨91, 89, 90⟩, ⟨90, 88, 89⟩,
   ⟨89, 40, 88⟩, ⟨88, 50, 87⟩, ⟨87, 50, 86⟩, ⟨86, 50, 85⟩,
   ⟨85, 50, 84⟩, ⟨84, 50, 83⟩, ⟨83, 50, 82⟩, ⟨82, 50, 81⟩,
   ⟨81, 80, 80⟩, ⟨80, 70, 79⟩, ⟨79, 77, 78⟩]

/-- C1 counterexample: on `dfC1` a buy countdown is active with 2 accumulated
qualifying bars (count < 13) when a new buy setup reaches 9 at bar 21; the
new setup is *not* more aggressive (its completion-bar low 70 is not below
the original starting bar's low 40, and it is not perfected), yet
`calculate_tdsequential` recycles anyway: the accumulated qualifying bars
`[12, 13]` are cleared, the reference is re-snapshotted from 97 to 88, and
the next qualifying bar (22) shows countdown count 1 instead of continuing
with 3 — contradicting the claim that the countdown would keep its
accumulated bars and reference unchanged. -/
theorem C1_counterexample :
    buySetup dfC1 12 = 9 ∧ buySetup dfC1 21 = 9 ∧
    (cdState dfC1 20).buyActive = true ∧ (cdState dfC1 20).buyBars = [12, 13] ∧
    buy_countdown dfC1 20 = 2 ∧
    ¬(low dfC1 21 < low dfC1 12) ∧ perfect_buy_9 dfC1 21 = false ∧
    (cdState dfC1 20).buyRef = some 97 ∧
    (cdState dfC1 21).buyBars = [] ∧ (cdState dfC1 21).buyRef = some 88 ∧
    buy_countdown dfC1 22 = 1 := by
  with_unfolding_all decide

/-- A series where a sell setup completes at bar 12 (rising closes), leaving
a sell countdown active, and a buy setup completes at bar 21 (falling
closes), exercising the cross-direction pre-emption. -/
def dfD : List Bar :=
  [⟨101, 70, 100⟩, ⟨102, 71, 101⟩, ⟨103, 72, 102⟩, ⟨104, 73, 103⟩,
   ⟨105, 74, 104⟩, ⟨106, 75, 105⟩, ⟨107, 76, 106⟩, ⟨108, 77, 107⟩,
   ⟨109, 78, 108⟩, ⟨110, 79, 109⟩, ⟨111, 80, 110⟩, ⟨112, 81, 111⟩,
   ⟨113, 82, 112⟩, ⟨109, 78, 108⟩, ⟨108, 77, 107⟩, ⟨107, 76, 106⟩,
   ⟨106, 75, 105⟩, ⟨105, 74, 104⟩, ⟨104, 73, 103⟩, ⟨103, 72, 102⟩,
   ⟨102, 71, 101⟩, ⟨101, 70, 100⟩]

theorem C1_recycle_unconditional_witness :
    (handleBuySetupCompletion dfD 21 (cdState dfD 20)).1.buyBars = [] ∧
    (handleBuySetupCompletion dfD 21 (cdState dfD 20)).1.sellActive = false ∧
    (handleBuySetupCompletion dfD 21 (cdState dfD 20)).2.sellCount = some 0 := by
  have h := (C1_recycle_unconditional dfD 21 (cdState dfD 20)).1
  have hs := h.2.2.2 (by with_unfolding_all decide)
  exact ⟨h.2.1, hs.1, hs.2⟩

lemma buySetup_nine_not_sell (df : List Bar) (i : ℕ) (h : buySetup df i = 9) :
    sellSetup df i ≠ 9 := by
  intro hs
  exact not_buy_and_sell_cond df i
    ⟨buySetup_pos_cond df i (by omega), sellSetup_pos_cond df i (by omega)⟩

lemma processBuy_sellActive (df : List Bar) (i : ℕ) (s : CdState) :
    (processBuyCountdown df i s).1.sellActive = s.sellActive := by
  unfold processBuyCountdown
  dsimp only
  (repeat' split) <;> simp [noCdWrites]

lemma processBuy_w_sellActive (df : List Bar) (i : ℕ) (s : CdState) :
    (processBuyCountdown df i s).2.sellActive = none := by
  unfold processBuyCountdown
  dsimp only
  (repeat' split) <;> simp [noCdWrites]

lemma processBuy_w_sellCount (df : List Bar) (i : ℕ) (s : CdState) :
    (processBuyCountdown df i s).2.sellCount = none := by
  unfold processBuyCountdown
  dsimp only
  (repeat' split) <;> simp [noCdWrites]

lemma processSell_buyActive (df : List Bar) (i : ℕ) (s : CdState) :
    (processSellCountdown df i s).1.buyActive = s.buyActive := by
  unfold processSellCountdown
  dsimp only
  (repeat' split) <;> simp [noCdWrites]

lemma processSell_w_buyActive (df : List Bar) (i : ℕ) (s : CdState) :
    (processSellCountdown df i s).2.buyActive = none := by
  unfold processSellCountdown
  dsimp only
  (repeat' split) <;> simp [noCdWrites]

lemma processSell_w_buyCount (df : List Bar) (i : ℕ) (s : CdState) :
    (processSellCountdown df i s).2.buyCount = none := by
  unfold processSellCountdown
  dsimp only
  (repeat' split) <;> simp [noCdWrites]

lemma handleBuy_facts (df : List Bar) (i : ℕ) (s : CdState) :
    (handleBuySetupCompletion df i s).1.buyActive = true ∧
    (handleBuySetupCompletion df i s).1.sellActive = false ∧
    (handleBuySetupCompletion df i s).2.buyActive = some true ∧
    (handleBuySetupCompletion df i s).2.sellActive =
      (if s.sellActive = true then some false else none) ∧
    (handleBuySetupCompletion df i s).2.sellCount =
      (if s.sellActive = true then some 0 else none) := by
  unfold handleBuySetupCompletion
  by_cases h : s.sellActive = true <;> simp [h, noCdWrites]

lemma handleSell_facts (df : List Bar) (i : ℕ) (s : CdState) :
    (handleSellSetupCompletion df i s).1.sellActive = true ∧
    (handleSellSetupCompletion df i s).1.buyActive = false ∧
    (handleSellSetupCompletion df i s).2.sellActive = some true ∧
    (handleSellSetupCompletion df i s).2.buyActive =
      (if s.buyActive = true then some false else none) ∧
    (handleSellSetupCompletion df i s).2.buyCount =
      (if s.buyActive = true then some 0 else none) := by
  unfold handleSellSetupCompletion
  by_cases h : s.buyActive = true <;> simp [h, noCdWrites]

lemma cdStep_excl (df : List Bar) (i : ℕ) (s : CdState)
    (hex : ¬(s.buyActive = true ∧ s.sellActive = true)) :
    ¬((cdStep df i s).1.buyActive = true ∧ (cdStep df i s).1.sellActive = true) ∧
    ¬((cdStep df i s).2.buyActive = some true ∧ (cdStep df i s).2.sellActive = some true) := by
  by_cases hb : buySetup df i = 9
  · have hs : sellSetup df i ≠ 9 := buySetup_nine_not_sell df i hb
    have hf := handleBuy_facts df i s
    by_cases hsa : s.sellActive = true <;>
      simp [cdStep, hb, hs, hsa, hf.1, hf.2.1, hf.2.2.1, hf.2.2.2.1, hf.2.2.2.2,
        processBuy_sellActive, processBuy_w_sellActive, processBuy_w_sellCount,
        mergeW, noCdWrites]
  · by_cases hs : sellSetup df i = 9
    · have hf := handleSell_facts df i s
      by_cases hba : s.buyActive = true <;>
        simp [cdStep, hb, hs, hba, hf.1, hf.2.1, hf.2.2.1, hf.2.2.2.1, hf.2.2.2.2,
          processSell_buyActive, processSell_w_buyActive, processSell_w_buyCount,
          mergeW, noCdWrites]
    · by_cases hba : s.buyActive = true
      · have hsa : ¬ s.sellActive = true := fun h => hex ⟨hba, h⟩
        simp [cdStep, hb, hs, hba, hsa, processBuy_sellActive,
          processBuy_w_sellActive, processBuy_w_sellCount, mergeW, noCdWrites]
      · by_cases hsa : s.sellActive = true <;>
          simp [cdStep, hb, hs, hba, hsa, processSell_buyActive,
            processSell_w_buyActive, processSell_w_buyCount, mergeW, noCdWrites]

lemma cdState_excl (df : List Bar) (i : ℕ) :
    ¬((cdState df i).buyActive = true ∧ (cdState df i).sellActive = true) := by
  induction i with
  | zero => simp [cdState, cdInit]
  | succ n ih =>
    rw [cdState]
    by_cases h : n + 1 < 9
    · rw [if_pos h]
      simp [cdInit]
    · rw [if_neg h]
      exact (cdStep_excl df (n + 1) _ ih).1

lemma cdWrites_excl (df : List Bar) (i : ℕ) :
    ¬((cdWrites df i).buyActive = some true ∧ (cdWrites df i).sellActive = some true) := by
  match i with
  | 0 => simp [cdWrites, noCdWrites]
  | n + 1 =>
    rw [cdWrites]
    by_cases h : n + 1 < 9
    · rw [if_pos h]
      simp [noCdWrites]
    · rw [if_neg h]
      exact (cdStep_excl df (n + 1) _ (cdState_excl df n)).2

lemma getD_false_eq_some_true {o : Option Bool} (h : o.getD false = true) :
    o = some true := by
  cases o with
  | none => simp at h
  | some b => simpa using h

/-- C8: on every output bar at most one of `buy_countdown_active` /
`sell_countdown_active` is set; a buy setup reaching 9 while a sell countdown
is active resets the sell countdown's count and active flag to 0 on that bar
(and starts the buy countdown), and vice versa. -/
theorem C8_countdown_mutual_exclusion (df : List Bar) (i : ℕ) :
    ¬(buy_countdown_active df i = true ∧ sell_countdown_active df i = true)
    ∧ (9 ≤ i → buySetup df i = 9 → (cdState df (i - 1)).sellActive = true →
        sell_countdown df i = 0 ∧ sell_countdown_active df i = false)
    ∧ (9 ≤ i → sellSetup df i = 9 → (cdState df (i - 1)).buyActive = true →
        buy_countdown df i = 0 ∧ buy_countdown_active df i = false) := by
  refine ⟨?_, ?_, ?_⟩
  · rintro ⟨hbuy, hsell⟩
    exact cdWrites_excl df i
      ⟨getD_false_eq_some_true hbuy, getD_false_eq_some_true hsell⟩
  · intro h9i hb hsa
    obtain ⟨n, rfl⟩ : ∃ n, i = n + 1 := ⟨i - 1, by omega⟩
    have hs : sellSetup df (n + 1) ≠ 9 := buySetup_nine_not_sell df (n + 1) hb
    have hf := handleBuy_facts df (n + 1) (cdState df n)
    have hw : cdWrites df (n + 1) = (cdStep df (n + 1) (cdState df n)).2 := by
      rw [cdWrites, if_neg (by omega)]
    simp only [Nat.add_sub_cancel] at hsa
    constructor
    · rw [sell_countdown, hw]
      simp [cdStep, hb, hs, hsa, hf.1, hf.2.1, hf.2.2.2.2,
        processBuy_w_sellCount, processBuy_sellActive, mergeW, noCdWrites]
    · rw [sell_countdown_active, hw]
      simp [cdStep, hb, hs, hsa, hf.1, hf.2.1, hf.2.2.2.1,
        processBuy_w_sellActive, processBuy_sellActive, mergeW, noCdWrites]
  · intro h9i hs hba
    obtain ⟨n, rfl⟩ : ∃ n, i = n + 1 := ⟨i - 1, by omega⟩
    have hbne : buySetup df (n + 1) ≠ 9 := by
      intro hb
      exact buySetup_nine_not_sell df (n + 1) hb hs
    have hf := handleSell_facts df (n + 1) (cdState df n)
    have hw : cdWrites df (n + 1) = (cdStep df (n + 1) (cdState df n)).2 := by
      rw [cdWrites, if_neg (by omega)]
    simp only [Nat.add_sub_cancel] at hba
    constructor
    · rw [buy_countdown, hw]
      simp [cdStep, hbne, hs, hba, hf.1, hf.2.1, hf.2.2.2.2,
        processSell_w_buyCount, processSell_buyActive, mergeW, noCdWrites]
    · rw [buy_countdown_active, hw]
      simp [cdStep, hbne, hs, hba, hf.1, hf.2.1, hf.2.2.2.1,
        processSell_w_buyActive, processSell_buyActive, mergeW, noCdWrites]

theorem C8_countdown_mutual_exclusion_witness :
    sell_countdown dfD 21 = 0 ∧ sell_countdown_active dfD 21 = false := by
  have h := (C8_countdown_mutual_exclusion dfD 21).2.1 (by omega)
    (by with_unfolding_all decide) (by with_unfolding_all decide)
  exact h
